import Mathlib

/-!
# Verification of the scraping & reconciliation pipeline

Shallow embedding, in Lean 4, of the data-processing core of the grocery
price-tracker repository (`server/app/services/data_processor.py`,
`server/app/scrapers/base_scraper.py`, `backend/app/scrapers/base_scraper.py`,
`server/app/utils/category_classifier.py`, `server/app/utils/price_calculator.py`),
together with theorems settling the frozen specification claims.

Conventions of the embedding:
* Python `float` values (prices, timestamps, confidences) are modelled as `ℚ`.
  Timestamps are rational numbers counting hours, so "24 hours" is the number 24.
* Python `None` is `Option.none`; Python truthiness of an optional string is
  "present and non-empty", of an optional number "present and nonzero".
* Python strings are `String` / `List Char`; the regular expressions used by the
  source (`\w`, `\s`, `\b`, and the concrete patterns of the classifier) are
  hand-translated character-level functions, faithful on the ASCII fragment the
  claims exercise.
* Database state is a record of lists (products, prices, history rows, stores)
  in insertion order; SQLAlchemy `filter(...).first()` is "first element of the
  filtered list", `order_by(desc).first()` is "element with maximal timestamp,
  first such in list order".
-/

/-- Python `re` word character `\w` (ASCII fragment): letter, digit or underscore. -/
def isWordChar (c : Char) : Bool := c.isAlphanum || c = '_'

/-- Python `re` whitespace `\s` / `str.split()` separator. -/
def isSpaceChar (c : Char) : Bool := c.isWhitespace

/-- `str.split()`: maximal runs of non-whitespace characters, in order. -/
def splitWsAux : List Char → List Char → List (List Char)
  | [], cur => if cur = [] then [] else [cur.reverse]
  | c :: cs, cur =>
    if isSpaceChar c then
      if cur = [] then splitWsAux cs [] else cur.reverse :: splitWsAux cs []
    else splitWsAux cs (c :: cur)

/-- `str.split()` on a character list. -/
def splitWs (cs : List Char) : List (List Char) := splitWsAux cs []

/-- `' '.join(words)`. -/
def joinSpaces (ws : List (List Char)) : List Char := List.intercalate [' '] ws

/-- The unit/pack tokens removed by `DataProcessor._normalize_product_name`:
`re.sub(r'\b(pack|pcs|pieces|kg|g|ml|l)\b', '', ...)`. -/
def unitWords : List (List Char) :=
  [['p','a','c','k'], ['p','c','s'], ['p','i','e','c','e','s'],
   ['k','g'], ['g'], ['m','l'], ['l']]

/-- Emit a completed run of word characters (held in reverse): a run equal to
one of the unit words is deleted, any other run is kept. -/
def flushRun (run : List Char) : List Char :=
  let r := run.reverse
  if r ∈ unitWords then [] else r

/-- Worker for `removeUnitRuns`; `run` is the current (reversed) maximal run of
word characters. -/
def removeUnitRunsAux : List Char → List Char → List Char
  | [], run => flushRun run
  | c :: cs, run =>
    if isWordChar c then removeUnitRunsAux cs (c :: run)
    else flushRun run ++ c :: removeUnitRunsAux cs []

/-- `re.sub(r'\b(pack|pcs|pieces|kg|g|ml|l)\b', '', s)`: because every
alternative consists solely of word characters, a match is exactly a maximal
run of word characters equal to one of the alternatives; such runs are deleted,
everything else is kept. -/
def removeUnitRuns (cs : List Char) : List Char := removeUnitRunsAux cs []

/-- `DataProcessor._normalize_product_name`. -/
def normalize_product_name (name : String) : String :=
  if name = "" then ""
  else
    -- normalized = ' '.join(name.lower().strip().split())
    let s1 := joinSpaces (splitWs (name.data.map Char.toLower))
    -- normalized = re.sub(r'\b(pack|pcs|pieces|kg|g|ml|l)\b', '', normalized)
    let s2 := removeUnitRuns s1
    -- normalized = re.sub(r'[^\w\s]', '', normalized)
    let s3 := s2.filter (fun c => isWordChar c || isSpaceChar c)
    -- normalized = re.sub(r'\s+', ' ', normalized).strip()
    String.mk (joinSpaces (splitWs s3))

/-- Worker for `dedupF`: keep elements not yet seen. -/
def dedupFAux {α : Type} [DecidableEq α] : List α → List α → List α
  | [], _ => []
  | a :: l, seen => if a ∈ seen then dedupFAux l seen else a :: dedupFAux l (a :: seen)

/-- Distinct elements of a list, keeping first occurrences (Python `set(...)`). -/
def dedupF {α : Type} [DecidableEq α] (l : List α) : List α := dedupFAux l []

/-- `DataProcessor._calculate_similarity`: Jaccard similarity of the word sets
of the two names. -/
def calculate_similarity (name1 name2 : String) : ℚ :=
  if name1 = "" || name2 = "" then 0
  else
    let words1 := dedupF ((splitWs name1.data).map String.mk)
    let words2 := dedupF ((splitWs name2.data).map String.mk)
    if words1 = [] ∧ words2 = [] then 1
    else
      let inter := words1.filter (fun w => w ∈ words2)
      let union := words1 ++ words2.filter (fun w => w ∉ words1)
      if union = [] then 0 else (inter.length : ℚ) / (union.length : ℚ)

/-- The processor's fuzzy-match acceptance threshold (`similarity_threshold`). -/
def similarity_threshold : ℚ := 8/10

/-- Python truthiness of an optional string (`None` and `""` are falsy). -/
def truthyS : Option String → Bool
  | none => false
  | some s => s ≠ ""

/-- Python truthiness of an optional number (`None` and `0` are falsy). -/
def truthyQ : Option ℚ → Bool
  | none => false
  | some q => q ≠ 0

/-- `str.strip()`: drop whitespace from both ends. -/
def pythonStrip (s : String) : String :=
  String.mk (((s.data.dropWhile isSpaceChar).reverse.dropWhile isSpaceChar).reverse)

/-- The `ScrapedProduct` dataclass of `server/app/scrapers/base_scraper.py`
(the backend generation's `ProductData` carries the same payload fields). -/
structure ScrapedProduct where
  name : String
  price : ℚ
  original_price : Option ℚ := none
  price_per_kg : Option ℚ := none
  pack_size : Option String := none
  pack_unit : Option String := none
  weight_value : Option ℚ := none
  weight_unit : Option String := none
  brand : Option String := none
  category : Option String := none
  subcategory : Option String := none
  description : Option String := none
  image_url : Option String := none
  product_url : Option String := none
  external_id : Option String := none
  is_available : Bool := true
  is_discounted : Bool := false
  is_on_sale : Bool := false
  discount_percentage : Option ℚ := none
  keywords : List String := []
deriving DecidableEq

/-- `BaseScraper.validate_product` (server generation). The Python function
mutates its argument when it silently corrects the discount fields, so the
embedding returns the boolean verdict together with the (possibly corrected)
record. `if product.original_price` is Python truthiness: present *and*
nonzero. -/
def validate_product (product : ScrapedProduct) : Bool × ScrapedProduct :=
  if product.name = "" || pythonStrip product.name = "" then (false, product)
  else if product.price ≤ 0 then (false, product)
  else if truthyQ product.original_price ∧
      product.original_price.getD 0 < product.price then
    (true, { product with original_price := none, is_discounted := false })
  else (true, product)

/-- `DataProcessor._validate_scraped_product`: unlike the scraper-side
validator it *rejects* a record whose (truthy) original price is below the
price, performing no correction. -/
def validate_scraped_product (product : ScrapedProduct) : Bool :=
  if product.name = "" || (pythonStrip product.name).length = 0 then false
  else if product.price ≤ 0 then false
  else if truthyQ product.original_price ∧
      product.original_price.getD 0 < product.price then false
  else true

/-- Floor of a rational (`Int.fdiv` is floor division). -/
def ratFloor (q : ℚ) : ℤ := Int.fdiv q.num q.den

/-- Round to the nearest integer, ties to even (Python `round` semantics on
the exact decimal values the claims exercise). -/
def roundHalfEven (q : ℚ) : ℤ :=
  let f := ratFloor q
  let frac := q - (f : ℚ)
  if frac < 1/2 then f
  else if frac > 1/2 then f + 1
  else if f % 2 = 0 then f else f + 1

/-- Python `round(x, 2)`. -/
def round2 (q : ℚ) : ℚ := (roundHalfEven (q * 100) : ℚ) / 100

/-- The deduplication key of `DataProcessor._remove_duplicates`. The Python
code concatenates `f"{normalized_name}_{price_key}"`; since the price segment
never contains an underscore the string determines both components, so the
pair is an equivalent key. -/
def product_key (p : ScrapedProduct) : String × ℚ :=
  (normalize_product_name p.name, round2 p.price)

/-- Worker for `remove_duplicates`; `seen` is the `seen_products` set. -/
def remove_duplicatesAux : List ScrapedProduct → List (String × ℚ) → List ScrapedProduct
  | [], _ => []
  | p :: ps, seen =>
    let key := product_key p
    if key ∈ seen then remove_duplicatesAux ps seen
    else p :: remove_duplicatesAux ps (key :: seen)

/-- `DataProcessor._remove_duplicates`. -/
def remove_duplicates (products : List ScrapedProduct) : List ScrapedProduct :=
  remove_duplicatesAux products []

/-- Modelled from the spec's words for comparison with `remove_duplicates`:
"records sharing this composite key collapse to the first occurrence" — keep
each record, discarding the later records that share its key. -/
def keep_first_by_key : List ScrapedProduct → List ScrapedProduct
  | [] => []
  | p :: ps =>
    p :: keep_first_by_key (ps.filter (fun q => product_key q ≠ product_key p))
termination_by l => l.length
decreasing_by
  exact Nat.lt_succ_of_le (List.length_filter_le _ _)

/-- Python `\d` (ASCII digits, the fragment price strings use). -/
def isDigitChar (c : Char) : Bool := c.isDigit

/-- `s.count(',')`. -/
def commaCount (cs : List Char) : ℕ := (cs.filter (fun c => c = ',')).length

/-- `s.split(sep)` on a single-character separator. -/
def splitOnChar (sep : Char) : List Char → List (List Char)
  | [] => [[]]
  | c :: cs =>
    let rest := splitOnChar sep cs
    if c = sep then [] :: rest
    else match rest with
      | [] => [[c]]
      | r :: rs => (c :: r) :: rs

/-- Numeric value of a digit string. -/
def digitsValNat (cs : List Char) : ℕ :=
  cs.foldl (fun acc c => acc * 10 + (c.toNat - 48)) 0

/-- Python `float(s)` restricted to the alphabet that survives
`clean_price`'s filtering (digits, dots, commas): succeeds iff the string has
no comma, at most one dot and at least one digit. (`Decimal(s)` accepts the
same language with the same value on this alphabet.) -/
def parsePyFloat (cs : List Char) : Option ℚ :=
  if cs.any (fun c => !(isDigitChar c || c = '.')) then none
  else
    match splitOnChar '.' cs with
    | [intPart] =>
      if intPart = [] then none else some (digitsValNat intPart : ℚ)
    | [intPart, fracPart] =>
      if intPart = [] ∧ fracPart = [] then none
      else some ((digitsValNat intPart : ℚ) +
        (digitsValNat fracPart : ℚ) / ((10 : ℚ) ^ fracPart.length))
    | _ => none

/-- The character list `BaseScraper.clean_price` (server generation) passes to
`float(...)`: strip, remove everything but digits/dots/commas, then the
comma-disambiguation rules. -/
def cleanedDigits (price_text : String) : List Char :=
  -- cleaned = re.sub(r'[^\d.,]', '', str(price_text).strip())
  let cleaned := (pythonStrip price_text).data.filter
    (fun c => isDigitChar c || c = '.' || c = ',')
  if ',' ∈ cleaned ∧ '.' ∈ cleaned then
    -- comma assumed to be a thousands separator: drop it
    cleaned.filter (fun c => c ≠ ',')
  else if ',' ∈ cleaned ∧ commaCount cleaned = 1 ∧
      ((cleaned.dropWhile (fun c => c ≠ ',')).tail.length ≤ 2) then
    -- comma as decimal separator
    cleaned.map (fun c => if c = ',' then '.' else c)
  else cleaned

/-- `BaseScraper.clean_price` of the server generation: returns
`round(float(cleaned), 2)`, or `0.0` when the input is falsy or parsing
raises. -/
def clean_price_server (price_text : String) : ℚ :=
  if price_text = "" then 0
  else
    match parsePyFloat (cleanedDigits price_text) with
    | some v => round2 v
    | none => 0

/-- The character list the backend generation's `clean_price` passes to
`Decimal(...)`: filter, turn every comma into a dot, then collapse multiple
dots so that only the last one survives. -/
def cleanedDigitsBackend (price_text : String) : List Char :=
  let t1 := price_text.data.filter (fun c => isDigitChar c || c = '.' || c = ',')
  let t2 := t1.map (fun c => if c = ',' then '.' else c)
  let parts := splitOnChar '.' t2
  match parts.getLast? with
  | some last => if parts.length > 2 then parts.dropLast.flatten ++ '.' :: last else t2
  | none => t2

/-- `BaseScraper.clean_price` of the backend generation: `Decimal(cleaned)`
(exact, no rounding), or `Decimal("0")` when parsing raises. -/
def clean_price_backend (price_text : String) : ℚ :=
  match parsePyFloat (cleanedDigitsBackend price_text) with
  | some v => v
  | none => 0

/-! ## Catalog data model (SQLAlchemy rows as records, tables as lists in
insertion order) -/

/-- A `Product` row. -/
structure Product where
  id : ℕ
  store_id : ℕ
  name : String
  category : String := "pantry"
  subcategory : Option String := none
  description : Option String := none
  image_url : Option String := none
  unit : Option String := none
  weight : Option ℚ := none
  brand : Option String := none
  is_organic : Bool := false
  external_id : Option String := none
  keywords : Option String := none
  is_active : Bool := true
  updated_at : ℚ := 0
deriving DecidableEq

/-- A `Price` row; `scraped_at` is the observation timestamp (hours). -/
structure Price where
  product_id : ℕ
  store_id : ℕ
  price : ℚ
  original_price : Option ℚ := none
  price_per_kg : Option ℚ := none
  discount_percentage : Option ℚ := none
  pack_size : Option String := none
  pack_unit : Option String := none
  weight_value : Option ℚ := none
  weight_unit : Option String := none
  is_available : Bool := true
  is_discounted : Bool := false
  is_on_sale : Bool := false
  product_url : Option String := none
  image_url : Option String := none
  scraped_at : ℚ
deriving DecidableEq

/-- A `PriceHistory` row. -/
structure PriceHistory where
  product_id : ℕ
  store_id : ℕ
  price : ℚ
  original_price : Option ℚ
  price_per_kg : Option ℚ
  discount_percentage : Option ℚ
  pack_size : Option String
  pack_unit : Option String
  is_available : Bool
  is_discounted : Bool
  change_type : String
  change_amount : ℚ
  change_percentage : ℚ
  recorded_at : ℚ
deriving DecidableEq

/-- A `Store` row (the fields `_update_store_stats` touches). -/
structure Store where
  id : ℕ
  last_scraped : Option ℚ := none
  total_scrapes : ℕ := 0
  failed_scrapes : ℕ := 0
  success_rate : ℚ := 0
deriving DecidableEq

/-- The relational state visible through the session. -/
structure DBState where
  products : List Product := []
  prices : List Price := []
  histories : List PriceHistory := []
  stores : List Store := []
deriving DecidableEq

/-! ## PriceCalculator (the part `_create_price_entry` uses) -/

/-- `PriceCalculator.UNIT_CONVERSIONS_TO_KG`. -/
def UNIT_CONVERSIONS_TO_KG : List (String × ℚ) :=
  [("g", 1/1000), ("gram", 1/1000), ("grams", 1/1000),
   ("kg", 1), ("kilogram", 1), ("kilograms", 1),
   ("lb", 453592/1000000), ("pound", 453592/1000000), ("pounds", 453592/1000000),
   ("oz", 283495/10000000), ("ounce", 283495/10000000), ("ounces", 283495/10000000)]

/-- `PriceCalculator.UNIT_CONVERSIONS_TO_L`. -/
def UNIT_CONVERSIONS_TO_L : List (String × ℚ) :=
  [("ml", 1/1000), ("milliliter", 1/1000), ("milliliters", 1/1000),
   ("l", 1), ("liter", 1), ("liters", 1),
   ("fl oz", 295735/10000000), ("fluid ounce", 295735/10000000)]

/-- Dictionary lookup in an association list. -/
def assocLookup (tbl : List (String × ℚ)) (k : String) : Option ℚ :=
  (tbl.find? (fun e => e.1 = k)).map (fun e => e.2)

/-- `s.lower().strip()`. -/
def lowerStrip (s : String) : String :=
  pythonStrip (String.mk (s.data.map Char.toLower))

/-- `PriceCalculator.convert_to_standard_unit`. -/
def convert_to_standard_unit (value : ℚ) (unit : Option String) : Option ℚ :=
  if ¬ truthyS unit then none
  else
    let u := lowerStrip (unit.getD "")
    match assocLookup UNIT_CONVERSIONS_TO_KG u with
    | some f => some (value * f)
    | none =>
      match assocLookup UNIT_CONVERSIONS_TO_L u with
      | some f => some (value * f)
      | none => none

/-- `PriceCalculator.calculate_price_per_unit`. `if not standard_weight` is
Python truthiness, so a zero conversion result would also yield `None`. -/
def calculate_price_per_unit (price weight : ℚ) (unit : Option String) : Option ℚ :=
  if weight = 0 ∨ weight ≤ 0 then none
  else
    match convert_to_standard_unit weight unit with
    | none => none
    | some sw => if sw = 0 then none else some (round2 (price / sw))

/-! ## DataProcessor: matching, price decision, mutation -/

/-- `self.price_change_threshold` (5 %). -/
def price_change_threshold : ℚ := 5/100

/-- The `Price` rows of a `(product, store)` pair, in insertion order
(`query(Price).filter(product_id, store_id)`). -/
def pricesFor (db : DBState) (product_id store_id : ℕ) : List Price :=
  db.prices.filter (fun pr => pr.product_id = product_id ∧ pr.store_id = store_id)

/-- The row with the maximal observation timestamp (first such row in order
on ties). -/
def latest_price (l : List Price) : Option Price :=
  l.foldl
    (fun acc pr =>
      match acc with
      | none => some pr
      | some best => if pr.scraped_at > best.scraped_at then some pr else best)
    none

/-- `.order_by(Price.scraped_at.desc()).first()` over the pair's rows. -/
def current_price_query (db : DBState) (product_id store_id : ℕ) : Option Price :=
  latest_price (pricesFor db product_id store_id)

/-- `DataProcessor._find_matching_product`: external-id match, then exact
name match, then first fuzzy match at or above the similarity threshold, all
scoped to the store. -/
def find_matching_product (db : DBState) (store_id : ℕ) (s : ScrapedProduct) :
    Option Product :=
  let storeProducts := db.products.filter (fun q => q.store_id = store_id)
  let extMatch : Option Product :=
    if truthyS s.external_id then
      storeProducts.find? (fun q => q.external_id = s.external_id)
    else none
  match extMatch with
  | some q => some q
  | none =>
    match storeProducts.find? (fun q => q.name = s.name) with
    | some q => some q
    | none =>
      let normalized_name := normalize_product_name s.name
      storeProducts.find? (fun q =>
        calculate_similarity normalized_name (normalize_product_name q.name) ≥
          similarity_threshold)

/-- `DataProcessor._should_update_price`. (When `current_price.price = 0` the
Python expression raises `ZeroDivisionError`; in `ℚ` the quotient is `0`. All
claims concern positive current prices.) -/
def should_update_price (now : ℚ) (current_price : Price) (s : ScrapedProduct) : Bool :=
  if now - current_price.scraped_at > 24 then true
  else if |current_price.price - s.price| / current_price.price ≥
      price_change_threshold then true
  else if current_price.is_available ≠ s.is_available then true
  else if current_price.is_discounted ≠ s.is_discounted then true
  else false

/-- `DataProcessor._create_price_entry` (the constructed row; the caller
appends it). -/
def create_price_entry (now : ℚ) (product_id store_id : ℕ) (s : ScrapedProduct) :
    Price :=
  let price_per_kg :=
    if truthyQ s.weight_value ∧ truthyS s.weight_unit then
      calculate_price_per_unit s.price (s.weight_value.getD 0) s.weight_unit
    else none
  { product_id := product_id
    store_id := store_id
    price := s.price
    original_price := s.original_price
    price_per_kg := price_per_kg
    discount_percentage := s.discount_percentage
    pack_size := s.pack_size
    pack_unit := s.pack_unit
    weight_value := s.weight_value
    weight_unit := s.weight_unit
    is_available := s.is_available
    is_discounted := s.is_discounted
    is_on_sale := s.is_on_sale
    product_url := s.product_url
    image_url := s.image_url
    scraped_at := now }

/-- `DataProcessor._create_price_history_entry`: snapshot of the *old* row
plus the derived change fields. -/
def create_price_history_entry (old_price : Price) (s : ScrapedProduct) :
    PriceHistory :=
  let price_change := s.price - old_price.price
  let change_percentage :=
    if old_price.price > 0 then price_change / old_price.price * 100 else 0
  let base_change_type :=
    if |change_percentage| ≥ 1 then
      if price_change > 0 then "increase" else "decrease"
    else "stable"
  let change_type :=
    if ¬ s.is_available then "unavailable"
    else if ¬ old_price.is_available ∧ s.is_available then "new"
    else base_change_type
  { product_id := old_price.product_id
    store_id := old_price.store_id
    price := old_price.price
    original_price := old_price.original_price
    price_per_kg := old_price.price_per_kg
    discount_percentage := old_price.discount_percentage
    pack_size := old_price.pack_size
    pack_unit := old_price.pack_unit
    is_available := old_price.is_available
    is_discounted := old_price.is_discounted
    change_type := change_type
    change_amount := price_change
    change_percentage := change_percentage
    recorded_at := old_price.scraped_at }

/-- The field merges at the top of `DataProcessor._update_existing_product`:
each attribute is filled from the scraped record only when the scraped value
is truthy and the stored value is falsy. -/
def merge_product_fields (product : Product) (s : ScrapedProduct) : Product :=
  let product :=
    if truthyS s.description ∧ ¬ truthyS product.description then
      { product with description := s.description } else product
  let product :=
    if truthyS s.image_url ∧ ¬ truthyS product.image_url then
      { product with image_url := s.image_url } else product
  let product :=
    if truthyS s.brand ∧ ¬ truthyS product.brand then
      { product with brand := s.brand } else product
  let product :=
    if truthyQ s.weight_value ∧ ¬ truthyQ product.weight then
      { product with weight := s.weight_value } else product
  let product :=
    if truthyS s.pack_unit ∧ ¬ truthyS product.unit then
      { product with unit := s.pack_unit } else product
  let product :=
    if truthyS s.external_id ∧ ¬ truthyS product.external_id then
      { product with external_id := s.external_id } else product
  product

/-- `DataProcessor._update_existing_product`. The Python function mutates the
session-tracked product object; the embedding replaces the row (by primary
key) in the table. Returns the new state and `price_updated`. -/
def update_existing_product (now : ℚ) (db : DBState) (product : Product)
    (s : ScrapedProduct) : DBState × Bool :=
  let merged := merge_product_fields product s
  let current_price := current_price_query db product.id product.store_id
  let entry := create_price_entry now product.id product.store_id s
  let (db2, price_updated) :=
    match current_price with
    | none => ({ db with prices := db.prices ++ [entry] }, true)
    | some cur =>
      if should_update_price now cur s then
        ({ db with
            prices := db.prices ++ [entry]
            histories := db.histories ++ [create_price_history_entry cur s] }, true)
      else (db, false)
  let merged := { merged with updated_at := now }
  ({ db2 with
      products := db2.products.map (fun q => if q.id = product.id then merged else q) },
   price_updated)

/-- `db.flush()` on a table with an autoincrement key: the fresh id. -/
def nextProductId (db : DBState) : ℕ :=
  (db.products.foldl (fun m q => max m q.id) 0) + 1

/-- The `Product` row constructed by `DataProcessor._create_new_product`,
with the id assigned at `db.flush()`. -/
def new_product_row (now : ℚ) (db : DBState) (store_id : ℕ)
    (s : ScrapedProduct) : Product :=
  { id := nextProductId db
    store_id := store_id
    name := s.name
    -- `scraped_product.category or 'pantry'` (truthiness)
    category := if truthyS s.category then s.category.getD "" else "pantry"
    subcategory := s.subcategory
    description := s.description
    image_url := s.image_url
    unit := s.pack_unit
    weight := s.weight_value
    brand := s.brand
    is_organic := false
    external_id := s.external_id
    -- `' '.join(keywords) if keywords else None`
    keywords := if s.keywords ≠ [] then some (String.intercalate " " s.keywords) else none
    is_active := true
    updated_at := now }

/-- `DataProcessor._create_new_product`. -/
def create_new_product (now : ℚ) (db : DBState) (store_id : ℕ)
    (s : ScrapedProduct) : DBState × Product :=
  let product := new_product_row now db store_id s
  let db2 := { db with products := db.products ++ [product] }
  let db3 := { db2 with
    prices := db2.prices ++ [create_price_entry now (nextProductId db) store_id s] }
  (db3, product)

/-- The result dictionary of `DataProcessor._process_single_product`. -/
structure ProcResult where
  action : String
  product_id : Option ℕ
  price_updated : Bool
deriving DecidableEq

/-- `DataProcessor._process_single_product`. -/
def process_single_product (now : ℚ) (db : DBState) (store_id : ℕ)
    (s : ScrapedProduct) : DBState × ProcResult :=
  if ¬ validate_scraped_product s then
    (db, { action := "invalid", product_id := none, price_updated := false })
  else
    match find_matching_product db store_id s with
    | some existing =>
      let (db2, updated) := update_existing_product now db existing s
      (db2, { action := "updated", product_id := some existing.id, price_updated := updated })
    | none =>
      let (db2, created) := create_new_product now db store_id s
      (db2, { action := "created", product_id := some created.id, price_updated := false })

/-! ## DataProcessor: run-level orchestration and transaction scope -/

/-- The statistics dictionary of `process_scraped_products`. -/
structure Stats where
  total_scraped : ℕ
  products_created : ℕ := 0
  products_updated : ℕ := 0
  prices_added : ℕ := 0
  prices_updated : ℕ := 0
  duplicates_removed : ℕ := 0
  invalid_products : ℕ := 0
  errors : List String := []
deriving DecidableEq

/-- A SQLAlchemy session: the durable state last committed and the state the
open transaction currently sees. `commit` publishes `current`; `rollback`
resets it to `committed`. -/
structure Sess where
  committed : DBState
  current : DBState
deriving DecidableEq

/-- `DataProcessor._update_store_stats`. -/
def update_store_stats (now : ℚ) (db : DBState) (store_id : ℕ) (stats : Stats) :
    DBState :=
  match db.stores.find? (fun st => st.id = store_id) with
  | none => db
  | some store =>
    let store := { store with
      last_scraped := some now
      total_scrapes := store.total_scrapes + 1 }
    let store :=
      if stats.errors ≠ [] then
        { store with failed_scrapes := store.failed_scrapes + 1 }
      else store
    let store :=
      if store.total_scrapes > 0 then
        { store with success_rate :=
          ((store.total_scrapes : ℚ) - (store.failed_scrapes : ℚ)) /
            (store.total_scrapes : ℚ) * 100 }
      else store
    { db with stores := db.stores.map (fun st => if st.id = store_id then store else st) }

/-- Per-record accounting step of the loop in `process_scraped_products`.
`record_fails p = true` models the record's processing raising an exception
(caught by the inner `try`, which logs the error message, counts the record
and continues, before the record's processing mutated anything). -/
def process_record_step (now : ℚ) (store_id : ℕ) (record_fails : ScrapedProduct → Bool)
    (acc : DBState × Stats) (p : ScrapedProduct) : DBState × Stats :=
  let (db, stats) := acc
  if record_fails p then
    (db, { stats with
      errors := stats.errors ++ ["Error processing product " ++ p.name]
      invalid_products := stats.invalid_products + 1 })
  else
    let (db2, r) := process_single_product now db store_id p
    if r.action = "created" then
      (db2, { stats with
        products_created := stats.products_created + 1
        prices_added := stats.prices_added + 1 })
    else if r.action = "updated" then
      if r.price_updated then
        (db2, { stats with
          products_updated := stats.products_updated + 1
          prices_updated := stats.prices_updated + 1 })
      else
        (db2, { stats with
          products_updated := stats.products_updated + 1
          prices_added := stats.prices_added + 1 })
    else
      (db2, { stats with invalid_products := stats.invalid_products + 1 })

/-- `DataProcessor.process_scraped_products`. `commit_fails = true` models an
infrastructure/persistence failure surfacing at `db.commit()` (the
`ReconciliationFailure` of the spec): the outer `except` then rolls the
session back, appends the error to the statistics and **returns** them — the
function never re-raises. -/
def process_scraped_products (now : ℚ) (sess : Sess) (store_id : ℕ)
    (scraped : List ScrapedProduct) (record_fails : ScrapedProduct → Bool)
    (commit_fails : Bool) : Stats × Sess :=
  let stats0 : Stats := { total_scraped := scraped.length }
  let unique := remove_duplicates scraped
  let stats1 := { stats0 with duplicates_removed := scraped.length - unique.length }
  let (db2, stats2) :=
    unique.foldl (process_record_step now store_id record_fails) (sess.current, stats1)
  let db3 := update_store_stats now db2 store_id stats2
  if commit_fails then
    ({ stats2 with errors := stats2.errors ++ ["Failed to process scraped products"] },
     { sess with current := sess.committed })
  else
    (stats2, { committed := db3, current := db3 })

/-- Modelled from the spec's words, for comparison with
`create_price_history_entry`: "changeType derived as: `unavailable` if the new
record is unavailable; `new` if the old record was unavailable and the new one
is available; otherwise `increase`/`decrease` if |changePercentage| ≥ 1%, else
`stable`". -/
def spec_change_type (new_available old_available : Bool)
    (change_percentage price_change : ℚ) : String :=
  if ¬ new_available then "unavailable"
  else if ¬ old_available ∧ new_available then "new"
  else if |change_percentage| ≥ 1 then
    if price_change > 0 then "increase" else "decrease"
  else "stable"

/-! ## Category classifier (server generation)

The source file `server/app/utils/category_classifier.py` does not parse: its
Arabic keyword string literals are corrupted (see `category_keywords` below),
so importing the module raises `SyntaxError` and `classify_product` can never
be called. The definitions here embed the module as written with only the
corrupted literals restored, to evaluate what the intended code computes. -/

/-- The classifier's `ProductCategory` enumeration. -/
inductive ProductCategory
  | vegetables | fruits | meat | dairy | bakery | beverages | pantry | snacks
  | frozen | household | personal_care | baby_care | health | pet
  | electronics | clothing | unknown
deriving DecidableEq

/-- Length of the common prefix of two character lists. -/
def cpl : List Char → List Char → ℕ
  | a :: as, b :: bs => if a = b then cpl as bs + 1 else 0
  | _, _ => 0

/-- `difflib.SequenceMatcher.find_longest_match` over the whole strings (no
junk, and the inputs are far below the autojunk threshold): the longest
common contiguous substring; per the difflib documentation, ties are broken
by the earliest start in `a`, then the earliest start in `b`. -/
def longestMatch (a b : List Char) : ℕ × ℕ × ℕ :=
  ((List.range a.length).flatMap (fun i => (List.range b.length).map (fun j => (i, j)))).foldl
    (fun best ij =>
      let k := cpl (a.drop ij.1) (b.drop ij.2)
      if k > best.2.2 then (ij.1, ij.2, k) else best)
    (0, 0, 0)

/-- Total size of `difflib`'s matching blocks: recursively take the longest
match and recurse on both sides. The fuel only serves structural recursion;
each recursive call strictly shrinks the first string, so `a.length + 1`
steps always suffice. -/
def matchTotalFuel : ℕ → List Char → List Char → ℕ
  | 0, _, _ => 0
  | fuel+1, a, b =>
    let m := longestMatch a b
    if m.2.2 = 0 then 0
    else
      m.2.2 + matchTotalFuel fuel (a.take m.1) (b.take m.2.1)
        + matchTotalFuel fuel (a.drop (m.1 + m.2.2)) (b.drop (m.2.1 + m.2.2))

/-- Total matched size of `difflib.SequenceMatcher.get_matching_blocks`. -/
def matchTotal (a b : List Char) : ℕ := matchTotalFuel (a.length + 1) a b

/-- `difflib.SequenceMatcher(None, a, b).ratio()` = `2*M/T` (`1.0` when both
strings are empty). -/
def seqRatio (a b : List Char) : ℚ :=
  if a.length + b.length = 0 then 1
  else 2 * (matchTotal a b : ℚ) / ((a.length : ℚ) + (b.length : ℚ))

/-- Python `needle in hay` on strings (substring containment). -/
def containsSub (hay needle : List Char) : Bool :=
  hay.tails.any (fun t => needle.isPrefixOf t)

/-- `s.lower()` (ASCII fragment of Python case mapping; Arabic has no case). -/
def lowerString (s : String) : String := String.mk (s.data.map Char.toLower)

/-- Worker for `wordRuns`. -/
def wordRunsAux : List Char → List Char → List (List Char)
  | [], cur => if cur = [] then [] else [cur.reverse]
  | c :: cs, cur =>
    if isWordChar c then wordRunsAux cs (c :: cur)
    else if cur = [] then wordRunsAux cs [] else cur.reverse :: wordRunsAux cs []

/-- `re.findall(r'\b\w+\b', ·)`: the maximal runs of word characters. -/
def wordRuns (cs : List Char) : List (List Char) := wordRunsAux cs []

/-- `defaultdict(float)` update `scores[c] += v`: accumulate in first-touch
(insertion) order. -/
def addScore (scores : List (ProductCategory × ℚ)) (c : ProductCategory) (v : ℚ) :
    List (ProductCategory × ℚ) :=
  if scores.any (fun e => e.1 = c) then
    scores.map (fun e => if e.1 = c then (e.1, e.2 + v) else e)
  else scores ++ [(c, v)]

/-- `max(scores.items(), key=lambda x: x[1])`: the first entry of maximal
value in iteration order. -/
def bestScore (scores : List (ProductCategory × ℚ)) : Option (ProductCategory × ℚ) :=
  scores.foldl
    (fun best e =>
      match best with
      | none => some e
      | some b => if e.2 > b.2 then some e else some b)
    none

/-- `max(scores.values())` (all accumulated scores are positive, so the `0`
start value is inert). -/
def maxVal (scores : List (ProductCategory × ℚ)) : ℚ :=
  (scores.map (fun e => e.2)).foldl max 0

set_option maxHeartbeats 1000000 in
/-- `CategoryClassifier._build_category_keywords`. The Arabic keyword string
literals are corrupted in the source file (each character kept only the low
byte of its Unicode code point, making the file a Python `SyntaxError`); they
are restored here by mapping each corrupted byte `b` back to `U+0600 + b`,
which reproduces the original Arabic words. -/
def category_keywords : List (ProductCategory × List (String × ℚ)) :=
  [(ProductCategory.vegetables,
     [("tomato", 1), ("tomatoes", 1), ("potato", 1), ("potatoes", 1), ("onion", 1),
      ("onions", 1), ("carrot", 1), ("carrots", 1), ("cucumber", 1), ("lettuce", 1),
      ("spinach", 1), ("cabbage", 1), ("pepper", 4/5), ("peppers", 4/5), ("bell", 7/10),
      ("capsicum", 1), ("broccoli", 1), ("cauliflower", 1), ("zucchini", 1), ("eggplant", 1),
      ("garlic", 1), ("ginger", 1), ("celery", 1), ("radish", 1), ("beetroot", 1),
      ("turnip", 1), ("leek", 1), ("corn", 4/5), ("peas", 4/5), ("beans", 7/10), ("okra", 1),
      ("artichoke", 1), ("asparagus", 1), ("mushroom", 9/10), ("mushrooms", 9/10), ("طماطم", 1),
      ("بطاطس", 1), ("بصل", 1), ("جزر", 1), ("خيار", 1), ("خس", 1), ("سبانخ", 1), ("ملفوف", 1),
      ("fresh", 3/5), ("organic", 3/5), ("local", 1/2), ("seasonal", 1/2), ("vegetable", 9/10),
      ("vegetables", 9/10), ("veggie", 4/5), ("produce", 7/10)]),
   (ProductCategory.fruits,
     [("apple", 1), ("apples", 1), ("banana", 1), ("bananas", 1), ("orange", 1), ("oranges", 1),
      ("grape", 1), ("grapes", 1), ("strawberry", 1), ("strawberries", 1), ("mango", 1),
      ("mangoes", 1), ("pineapple", 1), ("watermelon", 1), ("melon", 1), ("cantaloupe", 1),
      ("peach", 1), ("peaches", 1), ("pear", 1), ("pears", 1), ("cherry", 1), ("cherries", 1),
      ("plum", 1), ("plums", 1), ("kiwi", 1), ("avocado", 1), ("lemon", 1), ("lemons", 1),
      ("lime", 1), ("limes", 1), ("grapefruit", 1), ("pomegranate", 1), ("blueberry", 1),
      ("blueberries", 1), ("raspberry", 1), ("blackberry", 1), ("coconut", 1), ("dates", 1),
      ("figs", 1), ("apricot", 1), ("تفاح", 1), ("موز", 1), ("برتقال", 1), ("عنب", 1),
      ("فراولة", 1), ("مانجو", 1), ("أناناس", 1), ("بطيخ", 1), ("fruit", 9/10),
      ("fruits", 9/10), ("citrus", 4/5), ("berry", 4/5), ("berries", 4/5), ("tropical", 7/10),
      ("seasonal", 1/2), ("fresh", 3/5), ("ripe", 3/5)]),
   (ProductCategory.meat,
     [("chicken", 1), ("beef", 1), ("lamb", 1), ("mutton", 1), ("pork", 1), ("turkey", 1),
      ("duck", 1), ("veal", 1), ("goat", 1), ("rabbit", 9/10), ("venison", 1), ("breast", 7/10),
      ("thigh", 7/10), ("wing", 7/10), ("drumstick", 4/5), ("steak", 9/10), ("chops", 9/10),
      ("roast", 4/5), ("mince", 9/10), ("ground", 4/5), ("fillet", 4/5), ("cutlet", 4/5),
      ("ribs", 9/10), ("sausage", 9/10), ("bacon", 1), ("ham", 1), ("salami", 1),
      ("pepperoni", 1), ("bratwurst", 1), ("chorizo", 1), ("fish", 9/10), ("salmon", 1),
      ("tuna", 1), ("cod", 1), ("shrimp", 1), ("prawns", 1), ("lobster", 1), ("crab", 1),
      ("oyster", 1), ("mussels", 1), ("scallops", 1), ("calamari", 1), ("sardines", 1),
      ("mackerel", 1), ("sea bass", 1), ("tilapia", 1), ("دجاج", 1), ("لحم", 1), ("خروف", 1),
      ("بقر", 1), ("سمك", 1), ("جمبري", 1), ("كابوريا", 1), ("meat", 9/10), ("poultry", 9/10),
      ("seafood", 9/10), ("protein", 7/10), ("fresh", 3/5), ("frozen", 3/5), ("organic", 1/2),
      ("halal", 3/5), ("butcher", 4/5), ("deli", 7/10)]),
   (ProductCategory.dairy,
     [("milk", 1), ("cheese", 1), ("butter", 1), ("cream", 4/5), ("yogurt", 1), ("yoghurt", 1),
      ("kefir", 1), ("sour cream", 1), ("cottage cheese", 1), ("mozzarella", 1), ("cheddar", 1),
      ("feta", 1), ("parmesan", 1), ("gouda", 1), ("brie", 1), ("camembert", 1), ("ricotta", 1),
      ("mascarpone", 1), ("cream cheese", 1), ("whipped cream", 1), ("heavy cream", 1),
      ("half and half", 1), ("eggs", 1), ("egg", 1), ("dozen", 7/10), ("quail", 4/5),
      ("almond milk", 9/10), ("soy milk", 9/10), ("oat milk", 9/10), ("coconut milk", 4/5),
      ("rice milk", 9/10), ("cashew milk", 9/10), ("لبن", 1), ("جبن", 1), ("زبدة", 1),
      ("زبادي", 1), ("بيض", 1), ("كريمة", 4/5), ("dairy", 1), ("lactose", 7/10),
      ("calcium", 3/5), ("pasteurized", 3/5), ("full fat", 3/5), ("low fat", 3/5),
      ("skim", 7/10), ("whole", 1/2)]),
   (ProductCategory.bakery,
     [("bread", 1), ("loaf", 9/10), ("baguette", 1), ("roll", 4/5), ("rolls", 4/5), ("pita", 1),
      ("naan", 1), ("tortilla", 1), ("bagel", 1), ("croissant", 1), ("muffin", 1), ("scone", 1),
      ("biscuit", 4/5), ("toast", 4/5), ("sandwich", 7/10), ("burger bun", 9/10),
      ("hot dog bun", 9/10), ("cake", 1), ("cupcake", 1), ("pie", 4/5), ("tart", 9/10),
      ("pastry", 1), ("donut", 1), ("danish", 1), ("strudel", 1), ("eclair", 1),
      ("profiterole", 1), ("macaron", 1), ("cookie", 4/5), ("brownie", 1), ("خبز", 1),
      ("عيش", 1), ("كيك", 1), ("كعك", 1), ("بسكويت", 4/5), ("كرواسون", 1), ("bakery", 1),
      ("baked", 4/5), ("fresh", 3/5), ("artisan", 7/10), ("whole grain", 7/10),
      ("multigrain", 7/10), ("sourdough", 4/5), ("gluten free", 7/10), ("organic", 1/2)]),
   (ProductCategory.beverages,
     [("water", 9/10), ("juice", 1), ("soda", 1), ("cola", 1), ("pepsi", 1), ("sprite", 1),
      ("fanta", 1), ("tea", 1), ("coffee", 1), ("cappuccino", 1), ("latte", 1), ("espresso", 1),
      ("americano", 1), ("energy drink", 1), ("sports drink", 1), ("smoothie", 1),
      ("milkshake", 1), ("lemonade", 1), ("iced tea", 1), ("kombucha", 1), ("coconut water", 1),
      ("sparkling water", 1), ("beer", 1), ("wine", 1), ("whiskey", 1), ("vodka", 1),
      ("rum", 1), ("gin", 1), ("tequila", 1), ("brandy", 1), ("champagne", 1), ("cocktail", 1),
      ("liqueur", 1), ("عصير", 1), ("مياه", 9/10), ("شاي", 1), ("قهوة", 1), ("كولا", 1),
      ("مشروب", 4/5), ("drink", 4/5), ("beverage", 1), ("refreshing", 3/5), ("cold", 1/2),
      ("hot", 1/2), ("iced", 3/5), ("fizzy", 7/10), ("carbonated", 7/10), ("bottle", 1/2),
      ("can", 1/2), ("pack", 2/5), ("liter", 1/2), ("ml", 2/5)]),
   (ProductCategory.pantry,
     [("rice", 1), ("pasta", 1), ("noodles", 1), ("cereal", 1), ("oats", 1), ("quinoa", 1),
      ("barley", 1), ("wheat", 1), ("flour", 1), ("breadcrumbs", 1), ("couscous", 1),
      ("canned", 4/5), ("can", 3/5), ("tomato sauce", 1), ("paste", 4/5), ("beans", 4/5),
      ("lentils", 1), ("chickpeas", 1), ("corn", 7/10), ("soup", 9/10), ("broth", 1),
      ("stock", 1), ("sauce", 7/10), ("salt", 1), ("pepper", 7/10), ("sugar", 1), ("honey", 1),
      ("oil", 9/10), ("olive oil", 1), ("vinegar", 1), ("mustard", 1), ("ketchup", 1),
      ("mayonnaise", 1), ("soy sauce", 1), ("hot sauce", 1), ("bbq sauce", 1),
      ("salad dressing", 1), ("herbs", 4/5), ("spices", 9/10), ("seasoning", 9/10),
      ("marinade", 1), ("baking powder", 1), ("baking soda", 1), ("vanilla", 1), ("yeast", 1),
      ("cocoa", 1), ("chocolate chips", 9/10), ("أرز", 1), ("مكرونة", 1), ("دقيق", 1),
      ("سكر", 1), ("ملح", 1), ("زيت", 9/10), ("عسل", 1), ("صلصة", 7/10), ("pantry", 1),
      ("staple", 4/5), ("ingredient", 7/10), ("cooking", 3/5), ("dry goods", 4/5),
      ("shelf stable", 7/10), ("preserves", 4/5)]),
   (ProductCategory.snacks,
     [("chips", 1), ("crisps", 1), ("crackers", 1), ("pretzels", 1), ("popcorn", 1),
      ("tortilla chips", 1), ("corn chips", 1), ("rice cakes", 1), ("wafers", 1),
      ("biscuits", 4/5), ("nuts", 1), ("almonds", 1), ("walnuts", 1), ("cashews", 1),
      ("peanuts", 1), ("pistachios", 1), ("hazelnuts", 1), ("sunflower seeds", 1),
      ("pumpkin seeds", 1), ("trail mix", 1), ("chocolate", 1), ("candy", 1), ("gummy", 1),
      ("lollipop", 1), ("marshmallow", 1), ("cookie", 4/5), ("granola bar", 1),
      ("protein bar", 1), ("energy bar", 1), ("fruit snacks", 1), ("شيبس", 1), ("بسكويت", 4/5),
      ("شوكولاتة", 1), ("حلوى", 1), ("لوز", 1), ("فول سوداني", 1), ("فستق", 1), ("snack", 1),
      ("snacks", 1), ("crunchy", 7/10), ("crispy", 7/10), ("sweet", 3/5), ("salty", 3/5),
      ("healthy", 1/2), ("organic", 1/2), ("pack", 1/2), ("bag", 1/2), ("portion", 1/2)]),
   (ProductCategory.frozen,
     [("frozen", 1), ("ice cream", 1), ("sorbet", 1), ("gelato", 1), ("popsicle", 1),
      ("frozen yogurt", 1), ("sherbet", 1), ("frozen meal", 1), ("tv dinner", 1),
      ("frozen pizza", 1), ("frozen vegetables", 1), ("frozen fruits", 1),
      ("frozen berries", 1), ("ice", 4/5), ("freezer", 7/10), ("thaw", 7/10), ("defrost", 7/10),
      ("مثلجات", 1), ("آيس كريم", 1), ("مجمد", 1), ("keep frozen", 4/5),
      ("freezer section", 4/5), ("frost", 3/5), ("temperature", 1/2), ("cold", 1/2)]),
   (ProductCategory.household,
     [("detergent", 1), ("soap", 4/5), ("cleaner", 1), ("disinfectant", 1), ("bleach", 1),
      ("fabric softener", 1), ("stain remover", 1), ("dishwashing", 1), ("laundry", 1),
      ("floor cleaner", 1), ("glass cleaner", 1), ("bathroom cleaner", 1),
      ("kitchen cleaner", 1), ("toilet paper", 1), ("paper towels", 1), ("tissues", 1),
      ("napkins", 1), ("plates", 4/5), ("cups", 7/10), ("utensils", 4/5), ("aluminum foil", 1),
      ("plastic wrap", 1), ("garbage bags", 1), ("storage bags", 1), ("containers", 7/10),
      ("batteries", 1), ("light bulbs", 1), ("candles", 1), ("matches", 1), ("منظف", 1),
      ("صابون", 4/5), ("مطهر", 1), ("مناديل", 1), ("ورق تواليت", 1), ("أكياس", 4/5),
      ("بطاريات", 1), ("cleaning", 1), ("household", 1), ("home", 3/5), ("kitchen", 3/5),
      ("bathroom", 7/10), ("laundry room", 4/5), ("supplies", 4/5)]),
   (ProductCategory.personal_care,
     [("shampoo", 1), ("conditioner", 1), ("body wash", 1), ("soap", 7/10), ("toothpaste", 1),
      ("toothbrush", 1), ("mouthwash", 1), ("deodorant", 1), ("antiperspirant", 1),
      ("perfume", 1), ("cologne", 1), ("lotion", 1), ("moisturizer", 1), ("sunscreen", 1),
      ("face wash", 1), ("cleanser", 1), ("toner", 1), ("serum", 1), ("cream", 7/10),
      ("mask", 4/5), ("razor", 1), ("shaving cream", 1), ("aftershave", 1), ("nail polish", 1),
      ("makeup", 1), ("lipstick", 1), ("foundation", 9/10), ("mascara", 1), ("eyeshadow", 1),
      ("شامبو", 1), ("صابون", 7/10), ("معجون أسنان", 1), ("971", 1), ("كريم", 7/10),
      ("مزيل عرق", 1), ("غسول", 1), ("personal care", 1), ("hygiene", 1), ("beauty", 9/10),
      ("skincare", 1), ("hair care", 1), ("oral care", 1), ("cosmetics", 1), ("grooming", 1)]),
   (ProductCategory.baby_care,
     [("baby", 1), ("infant", 1), ("newborn", 1), ("toddler", 4/5), ("diapers", 1),
      ("nappies", 1), ("wipes", 1), ("baby wipes", 1), ("baby food", 1), ("formula", 1),
      ("baby milk", 1), ("baby bottle", 1), ("pacifier", 1), ("teething", 1),
      ("baby shampoo", 1), ("baby soap", 1), ("baby lotion", 1), ("baby powder", 1),
      ("rash cream", 1), ("baby oil", 1), ("stroller", 1), ("car seat", 1), ("high chair", 1),
      ("baby carrier", 1), ("crib", 1), ("bassinet", 1), ("طفل", 1), ("رضيع", 1), ("حفاضات", 1),
      ("مناديل أطفال", 1), ("طعام أطفال", 1), ("لبن أطفال", 1), ("شامبو أطفال", 1),
      ("pediatric", 1), ("child", 7/10), ("kids", 3/5), ("nursery", 4/5), ("months", 3/5),
      ("years", 1/2), ("gentle", 3/5), ("hypoallergenic", 7/10)]),
   (ProductCategory.health,
     [("medicine", 1), ("medication", 1), ("pills", 1), ("tablets", 1), ("capsules", 1),
      ("syrup", 9/10), ("drops", 4/5), ("ointment", 1), ("cream", 7/10), ("gel", 4/5),
      ("spray", 7/10), ("patch", 4/5), ("vitamin", 1), ("supplement", 1), ("protein", 4/5),
      ("calcium", 1), ("iron", 9/10), ("zinc", 1), ("magnesium", 1), ("omega", 1),
      ("probiotics", 1), ("multivitamin", 1), ("pain relief", 1), ("aspirin", 1),
      ("ibuprofen", 1), ("acetaminophen", 1), ("antibiotic", 1), ("antacid", 1), ("cough", 1),
      ("cold", 7/10), ("allergy", 1), ("fever", 4/5), ("thermometer", 1), ("bandage", 1),
      ("first aid", 1), ("دواء", 1), ("حبوب", 1), ("فيتامين", 1), ("مكمل غذائي", 1),
      ("مسكن", 1), ("مضاد حيوي", 1), ("كريم", 7/10), ("مرهم", 1), ("pharmacy", 1),
      ("medical", 1), ("health", 1), ("wellness", 1), ("prescription", 4/5),
      ("over-the-counter", 1), ("otc", 1), ("therapeutic", 9/10), ("clinical", 4/5)])]

/-- `CategoryClassifier._build_brand_categories`. -/
def brand_categories : List (String × ProductCategory) :=
  [("almarai", ProductCategory.dairy), ("juhayna", ProductCategory.dairy),
   ("domty", ProductCategory.dairy), ("beyti", ProductCategory.dairy),
   ("nada", ProductCategory.dairy), ("dannon", ProductCategory.dairy),
   ("chobani", ProductCategory.dairy), ("yoplait", ProductCategory.dairy),
   ("philadelphia", ProductCategory.dairy), ("coca-cola", ProductCategory.beverages),
   ("pepsi", ProductCategory.beverages), ("sprite", ProductCategory.beverages),
   ("fanta", ProductCategory.beverages), ("nestle", ProductCategory.beverages),
   ("tropicana", ProductCategory.beverages), ("fresh", ProductCategory.beverages),
   ("baraka", ProductCategory.beverages), ("hayat", ProductCategory.beverages),
   ("aquafina", ProductCategory.beverages), ("lays", ProductCategory.snacks),
   ("pringles", ProductCategory.snacks), ("doritos", ProductCategory.snacks),
   ("cheetos", ProductCategory.snacks), ("oreo", ProductCategory.snacks),
   ("kitkat", ProductCategory.snacks), ("snickers", ProductCategory.snacks),
   ("twix", ProductCategory.snacks), ("mars", ProductCategory.snacks),
   ("cadbury", ProductCategory.snacks), ("ariel", ProductCategory.household),
   ("tide", ProductCategory.household), ("persil", ProductCategory.household),
   ("fairy", ProductCategory.household), ("mr clean", ProductCategory.household),
   ("lysol", ProductCategory.household), ("clorox", ProductCategory.household),
   ("downy", ProductCategory.household), ("bounce", ProductCategory.household),
   ("johnson", ProductCategory.personal_care), ("nivea", ProductCategory.personal_care),
   ("dove", ProductCategory.personal_care), ("olay", ProductCategory.personal_care),
   ("pantene", ProductCategory.personal_care),
   ("head shoulders", ProductCategory.personal_care), ("loreal", ProductCategory.personal_care),
   ("garnier", ProductCategory.personal_care), ("colgate", ProductCategory.personal_care),
   ("oral-b", ProductCategory.personal_care), ("pampers", ProductCategory.baby_care),
   ("huggies", ProductCategory.baby_care), ("johnson baby", ProductCategory.baby_care),
   ("mustela", ProductCategory.baby_care), ("sebamed", ProductCategory.baby_care),
   ("baby dove", ProductCategory.baby_care), ("chicco", ProductCategory.baby_care),
   ("avent", ProductCategory.baby_care), ("panadol", ProductCategory.health),
   ("advil", ProductCategory.health), ("centrum", ProductCategory.health),
   ("pfizer", ProductCategory.health), ("gsk", ProductCategory.health),
   ("bayer", ProductCategory.health), ("tylenol", ProductCategory.health),
   ("aspirin", ProductCategory.health), ("voltaren", ProductCategory.health)]

/-- The score contribution of one keyword in
`CategoryClassifier._classify_by_keywords`: exact phrase containment scores
the full weight; else exact word match scores `0.8·w`; else, when the keyword
and some word contain one another, fuzzy match scores `0.6·sim·w` if the best
`SequenceMatcher` ratio against the words longer than 2 characters exceeds
0.7. A zero result means the keyword leaves the score untouched (every
executed Python branch adds a strictly positive amount). (When the fuzzy
branch fires with no word longer than 2 characters, Python's `max()` would
raise on an empty generator; the embedding yields 0.) -/
def keywordScoreOne (text : List Char) (words : List (List Char))
    (kw : List Char) (w : ℚ) : ℚ :=
  if containsSub text kw then w
  else if words.any (fun word => word = kw) then w * (8/10)
  else if words.any (fun word => containsSub word kw || containsSub kw word) then
    let sim := ((words.filter (fun word => word.length > 2)).map
      (fun word => seqRatio kw word)).foldl max 0
    if sim > 7/10 then w * sim * (6/10) else 0
  else 0

/-- `CategoryClassifier._classify_by_keywords`. -/
def classify_by_keywords (text : String) : ProductCategory × ℚ :=
  let lower := (lowerString text).data
  -- words = set(re.findall(r'\b\w+\b', text.lower())); the set is only used
  -- through `any`/`filter`/`max`, so first-occurrence order is inert
  let words := dedupF (wordRuns lower)
  let scores := category_keywords.foldl
    (fun sc cw =>
      cw.2.foldl
        (fun sc2 kv =>
          let d := keywordScoreOne lower words kv.1.data kv.2
          if d = 0 then sc2 else addScore sc2 cw.1 d)
        sc)
    []
  if scores = [] then (ProductCategory.unknown, 0)
  else
    let mx := maxVal scores
    let normalized := if mx > 0 then scores.map (fun e => (e.1, e.2 / mx)) else scores
    match bestScore normalized with
    | some b => b
    | none => (ProductCategory.unknown, 0)

/-- The three shapes of regular expression used by the classifier's unit
patterns: a literal, two literals joined by `\s+`, and `\d+\s*UNIT` with an
optional trailing `\b`. -/
inductive Pat
  | lit (s : String)
  | litSeq (a b : String)
  | numUnit (u : String) (wb : Bool)

/-- Length of the (greedy, deterministic — no alternative can match after
backtracking because a unit never starts with a digit or a space) match of a
pattern at the head of `cs`, if any. -/
def matchPatAt (pt : Pat) (cs : List Char) : Option ℕ :=
  match pt with
  | .lit s => if s.data.isPrefixOf cs then some s.data.length else none
  | .litSeq a b =>
    if a.data.isPrefixOf cs then
      let rest := cs.drop a.data.length
      let sp := rest.takeWhile isSpaceChar
      if sp.length ≥ 1 ∧ b.data.isPrefixOf (rest.drop sp.length) then
        some (a.data.length + sp.length + b.data.length)
      else none
    else none
  | .numUnit u wb =>
    let ds := cs.takeWhile isDigitChar
    if ds.length = 0 then none
    else
      let rest1 := cs.drop ds.length
      let sp := rest1.takeWhile isSpaceChar
      let rest2 := rest1.drop sp.length
      if u.data.isPrefixOf rest2 then
        if wb then
          match rest2.drop u.data.length with
          | [] => some (ds.length + sp.length + u.data.length)
          | c :: _ =>
            if isWordChar c then none else some (ds.length + sp.length + u.data.length)
        else some (ds.length + sp.length + u.data.length)
      else none

/-- `len(re.findall(pattern, text))`: non-overlapping left-to-right matches.
The fuel only serves structural recursion; no pattern matches the empty
string, so `cs.length` steps suffice. -/
def countPatAux : ℕ → Pat → List Char → ℕ
  | 0, _, _ => 0
  | _, _, [] => 0
  | fuel+1, pt, c :: cs =>
    match matchPatAt pt (c :: cs) with
    | some k => 1 + countPatAux fuel pt ((c :: cs).drop k)
    | none => countPatAux fuel pt cs

/-- Number of `re.findall` matches of a pattern. -/
def countPat (pt : Pat) (cs : List Char) : ℕ := countPatAux cs.length pt cs

/-- `re.search(pattern, text)` as a Boolean. -/
def existsPat (pt : Pat) (cs : List Char) : Bool :=
  cs.tails.any (fun t => (matchPatAt pt t).isSome)

/-- `re.search(r'\b(w₁|…|wₙ)\b', text)`: since every alternative consists of
word characters only, this is whole-word containment. -/
def wordAlt (ws : List String) (cs : List Char) : Bool :=
  (wordRuns cs).any (fun r => ws.any (fun w => r = w.data))

/-- `CategoryClassifier._build_unit_patterns`. -/
def unit_patterns : List (ProductCategory × List Pat) :=
  [(ProductCategory.meat,
    [.numUnit "kg" false, .numUnit "g" true, .numUnit "lb" false, .numUnit "oz" false,
     .litSeq "per" "kg", .litSeq "per" "lb", .lit "frozen", .lit "fresh"]),
   (ProductCategory.vegetables,
    [.numUnit "kg" false, .numUnit "g" true, .lit "bunch", .lit "head", .lit "piece",
     .lit "organic", .lit "fresh", .lit "local"]),
   (ProductCategory.dairy,
    [.numUnit "ml" false, .numUnit "l" true, .numUnit "oz" false,
     .litSeq "low" "fat", .litSeq "full" "fat", .lit "skim", .lit "whole", .lit "dozen"]),
   (ProductCategory.beverages,
    [.numUnit "ml" false, .numUnit "l" true, .numUnit "oz" false, .lit "bottle",
     .lit "can", .lit "pack", .lit "case", .lit "carbonated", .lit "still"]),
   (ProductCategory.pantry,
    [.numUnit "g" true, .numUnit "kg" false, .numUnit "oz" false, .numUnit "lb" false,
     .lit "jar", .lit "bottle", .lit "can", .lit "pack", .lit "bag"])]

/-- `CategoryClassifier._classify_by_patterns` (the call sites pass
already-lowercased text, matching `re.IGNORECASE` with lowercase patterns). -/
def classify_by_patterns (text : String) : ProductCategory × ℚ :=
  let cs := text.data
  let scores := unit_patterns.foldl
    (fun sc cp =>
      cp.2.foldl
        (fun sc2 pt =>
          let n := countPat pt cs
          if n > 0 then addScore sc2 cp.1 ((n : ℚ) * (5/10)) else sc2)
        sc)
    []
  if scores = [] then (ProductCategory.unknown, 0)
  else
    let mx := maxVal scores
    let normalized := scores.map (fun e => (e.1, min (e.2 / mx) 1))
    match bestScore normalized with
    | some b => b
    | none => (ProductCategory.unknown, 0)

/-- `CategoryClassifier._classify_by_context` (the `name` argument is unused
in the source body as well). -/
def classify_by_context (name text : String) : ProductCategory × ℚ :=
  let cs := text.data
  let sc0 : List (ProductCategory × ℚ) := []
  let sc1 :=
    if existsPat (.numUnit "ml" false) cs || existsPat (.numUnit "l" false) cs ||
        existsPat (.numUnit "liter" false) cs then
      addScore (addScore sc0 ProductCategory.beverages (3/10)) ProductCategory.dairy (2/10)
    else sc0
  let sc2 :=
    if existsPat (.numUnit "kg" false) cs || existsPat (.numUnit "g" false) cs ||
        existsPat (.numUnit "gram" false) cs || existsPat (.numUnit "lb" false) cs ||
        existsPat (.numUnit "pound" false) cs then
      addScore (addScore (addScore sc1 ProductCategory.meat (3/10))
        ProductCategory.vegetables (2/10)) ProductCategory.pantry (2/10)
    else sc1
  let sc3 :=
    if existsPat (.numUnit "oz" false) cs || existsPat (.numUnit "ounce" false) cs then
      addScore (addScore sc2 ProductCategory.beverages (2/10))
        ProductCategory.personal_care (2/10)
    else sc2
  let sc4 :=
    if wordAlt ["bottle", "jar", "can", "pack", "bag"] cs then
      addScore (addScore sc3 ProductCategory.pantry (2/10)) ProductCategory.beverages (1/10)
    else sc3
  let sc5 :=
    if wordAlt ["fresh", "organic", "natural", "farm"] cs then
      addScore (addScore (addScore sc4 ProductCategory.vegetables (3/10))
        ProductCategory.fruits (3/10)) ProductCategory.meat (2/10)
    else sc4
  let sc6 :=
    if wordAlt ["frozen", "canned", "dried", "baked"] cs then
      addScore (addScore sc5 ProductCategory.frozen (4/10)) ProductCategory.pantry (2/10)
    else sc5
  if sc6 = [] then (ProductCategory.unknown, 0)
  else
    match bestScore sc6 with
    | some b => b
    | none => (ProductCategory.unknown, 0)

/-- `CategoryClassifier._classify_by_brand`. -/
def classify_by_brand (brand : String) : ProductCategory × ℚ :=
  let b := lowerStrip brand
  match brand_categories.find? (fun e => e.1 = b) with
  | some e => (e.2, 9/10)
  | none =>
    match brand_categories.findSome?
        (fun e =>
          if (containsSub b.data e.1.data || containsSub e.1.data b.data) ∧
              seqRatio b.data e.1.data > 8/10 then
            some (e.2, (8/10) * seqRatio b.data e.1.data)
          else none) with
    | some r => r
    | none => (ProductCategory.unknown, 0)

/-- `CategoryClassifier._classify_by_store_category`'s `category_mappings`. -/
def store_category_mappings : List (String × ProductCategory) :=
  [("dairy", .dairy), ("meat", .meat), ("poultry", .meat), ("seafood", .meat),
   ("produce", .vegetables), ("vegetables", .vegetables), ("fruits", .fruits),
   ("bakery", .bakery), ("bread", .bakery), ("beverages", .beverages),
   ("drinks", .beverages), ("pantry", .pantry), ("grocery", .pantry),
   ("snacks", .snacks), ("frozen", .frozen), ("household", .household),
   ("cleaning", .household), ("personal care", .personal_care),
   ("beauty", .personal_care), ("baby", .baby_care), ("health", .health),
   ("pharmacy", .health), ("pet", .pet)]

/-- `CategoryClassifier._classify_by_store_category`. -/
def classify_by_store_category (store_category : String) : ProductCategory × ℚ :=
  let s := lowerStrip store_category
  match store_category_mappings.find? (fun e => e.1 = s) with
  | some e => (e.2, 8/10)
  | none =>
    match store_category_mappings.findSome?
        (fun e =>
          if containsSub s.data e.1.data || containsSub e.1.data s.data then
            some (e.2, (7/10 : ℚ))
          else none) with
    | some r => r
    | none => (ProductCategory.unknown, 0)

/-- `CategoryClassifier._build_exclusion_patterns`. -/
def exclusion_patterns : List (ProductCategory × List String) :=
  [(ProductCategory.meat, ["soap", "shampoo", "detergent", "cleaner"]),
   (ProductCategory.beverages, ["soap", "shampoo", "lotion", "cream"]),
   (ProductCategory.personal_care, ["food", "drink", "eat", "meal"])]

/-- `CategoryClassifier._is_excluded`. -/
def is_excluded (text : String) (c : ProductCategory) : Bool :=
  match exclusion_patterns.find? (fun e => e.1 = c) with
  | none => false
  | some e => e.2.any (fun pat => containsSub text.data pat.data)

/-- Stable descending insertion (as Python's stable
`sorted(..., reverse=True)`). -/
def insertDesc (x : ProductCategory × ℚ) :
    List (ProductCategory × ℚ) → List (ProductCategory × ℚ)
  | [] => [x]
  | y :: ys => if x.2 > y.2 then x :: y :: ys else y :: insertDesc x ys

/-- `sorted(candidates.items(), key=lambda x: x[1], reverse=True)`. -/
def sortDesc (l : List (ProductCategory × ℚ)) : List (ProductCategory × ℚ) :=
  l.foldl (fun acc x => insertDesc x acc) []

/-- `CategoryClassifier.classify_product` (and the module-level
`classify_product` wrapper around the global instance). -/
def classify_product (name : String)
    (description brand store_category : Option String) : ProductCategory × ℚ :=
  if name = "" then (ProductCategory.unknown, 0)
  else
    let text_parts := [lowerString name]
      ++ (match description with
          | some d => if d ≠ "" then [lowerString d] else []
          | none => [])
      ++ (match brand with
          | some b => if b ≠ "" then [lowerString b] else []
          | none => [])
      ++ (match store_category with
          | some sc => if sc ≠ "" then [lowerString sc] else []
          | none => [])
    let combined_text := String.intercalate " " text_parts
    let brandStep : Option (ProductCategory × ℚ) :=
      match brand with
      | some b =>
        if b ≠ "" then
          let bc := classify_by_brand (lowerString b)
          if bc.2 > 8/10 then some bc else none
        else none
      | none => none
    match brandStep with
    | some r => r
    | none =>
      let storeStep : Option (ProductCategory × ℚ) :=
        match store_category with
        | some scv =>
          if scv ≠ "" then
            let scr := classify_by_store_category (lowerString scv)
            if scr.2 > 7/10 then some scr else none
          else none
        | none => none
      match storeStep with
      | some r => r
      | none =>
        let keyword_result := classify_by_keywords combined_text
        let pattern_result := classify_by_patterns combined_text
        let context_result := classify_by_context (lowerString name) combined_text
        let c0 : List (ProductCategory × ℚ) := []
        let c1 :=
          if keyword_result.2 > 3/10 then
            addScore c0 keyword_result.1 (keyword_result.2 * (4/10))
          else c0
        let c2 :=
          if pattern_result.2 > 3/10 then
            addScore c1 pattern_result.1 (pattern_result.2 * (3/10))
          else c1
        let c3 :=
          if context_result.2 > 3/10 then
            addScore c2 context_result.1 (context_result.2 * (2/10))
          else c2
        let c4 :=
          match brand with
          | some b =>
            if b ≠ "" then
              let br := classify_by_brand (lowerString b)
              if br.2 > 3/10 then addScore c3 br.1 (br.2 * (1/10)) else c3
            else c3
          | none => c3
        if c4 = [] then (ProductCategory.unknown, 0)
        else
          match bestScore c4 with
          | none => (ProductCategory.unknown, 0)
          | some best =>
            if is_excluded combined_text best.1 then
              match sortDesc c4 with
              | _ :: second :: _ => (second.1, second.2)
              | _ => (ProductCategory.unknown, 0)
            else (best.1, min best.2 1)

section ClaimTheorems

attribute [local semireducible] Rat.add Rat.mul Rat.inv Rat.sub

/-! ### C1 -/

/-- C1 counterexample: the claim asserts the normalized pair
"cherry tomatoes 500g" / "cherry tomato 500 g" reaches the 0.8 acceptance
threshold; in fact the similarity is 1/5 (the unit regex strips the lone `g`
but not the `g` of `500g`, and `tomatoes`/`tomato` are distinct tokens). -/
theorem C1_counterexample :
    ¬ (calculate_similarity (normalize_product_name "cherry tomatoes 500g")
        (normalize_product_name "cherry tomato 500 g") ≥ similarity_threshold) ∧
    calculate_similarity (normalize_product_name "cherry tomatoes 500g")
      (normalize_product_name "cherry tomato 500 g") = 1/5 := by decide

/-- C1 (amended): both example pairs fall strictly below the 0.8 similarity
threshold — "cherry tomatoes 500g" vs "cherry tomato 500 g" scores 1/5 and
"cherry tomatoes" vs "beef tomatoes" scores 1/3 — so neither pair is accepted
by the fuzzy matcher. -/
theorem C1_both_pairs_below_threshold :
    calculate_similarity (normalize_product_name "cherry tomatoes 500g")
        (normalize_product_name "cherry tomato 500 g") = 1/5 ∧
    calculate_similarity (normalize_product_name "cherry tomatoes")
        (normalize_product_name "beef tomatoes") = 1/3 ∧
    (1/5 : ℚ) < similarity_threshold ∧ (1/3 : ℚ) < similarity_threshold := by decide

/-! ### C2 -/

/-- C2 counterexample: a record with price 30 and originalPrice 25 *is*
dropped as invalid by `DataProcessor._validate_scraped_product` (the claim
says validation accepts it), and on the scraper side a present originalPrice
of 0 (falsy in Python) escapes the correction entirely: the record is
accepted with originalPrice still 0 and isDiscounted still true. -/
theorem C2_counterexample :
    validate_scraped_product { name := "x", price := 30, original_price := some 25 } = false ∧
    validate_product
        { name := "x", price := 30, original_price := some 0, is_discounted := true } =
      (true, { name := "x", price := 30, original_price := some 0, is_discounted := true }) := by
  decide

/-- C2 (amended): `BaseScraper.validate_product` accepts a record whose name
is not blank, whose price is positive and whose originalPrice is present,
nonzero, and strictly below the price, clearing originalPrice to `None` and
forcing isDiscounted to false; `DataProcessor._validate_scraped_product`, by
contrast, rejects any such record outright. -/
theorem C2_discount_self_correction (p : ScrapedProduct) (v : ℚ)
    (hname : pythonStrip p.name ≠ "") (hprice : 0 < p.price)
    (hop : p.original_price = some v) (hv : v ≠ 0) (hlt : v < p.price) :
    validate_product p = (true, { p with original_price := none, is_discounted := false }) ∧
    validate_scraped_product p = false := by
  have hn : ¬ p.name = "" := by
    intro h
    exact hname (by rw [h]; rfl)
  have hq : truthyQ p.original_price = true := by
    rw [hop]; simpa [truthyQ] using hv
  have hgetd : p.original_price.getD 0 < p.price := by rw [hop]; exact hlt
  have hlen : ¬ (pythonStrip p.name).length = 0 := by
    intro hc
    apply hname
    cases hs : pythonStrip p.name with
    | mk data =>
      rw [hs] at hc
      cases data with
      | nil => rfl
      | cons c cs => simp [String.length] at hc
  constructor
  · unfold validate_product
    rw [if_neg (by simp [hn, hname]), if_neg (not_le.mpr hprice), if_pos ⟨hq, hgetd⟩]
  · unfold validate_scraped_product
    rw [if_neg (by simp [hn, hlen]), if_neg (not_le.mpr hprice), if_pos ⟨hq, hgetd⟩]

/-- C2 witness: the spec's own example, price 30 with originalPrice 25. -/
theorem C2_witness :
    validate_product { name := "apple", price := 30, original_price := some 25 } =
      (true, { name := "apple", price := 30, original_price := none,
               is_discounted := false }) ∧
    validate_scraped_product { name := "apple", price := 30, original_price := some 25 } =
      false :=
  C2_discount_self_correction _ 25 (by decide) (by norm_num) rfl (by norm_num) (by norm_num)

/-! ### C4 -/

/-- The update gate, spelled as a disjunction. -/
theorem should_update_price_iff (now : ℚ) (cur : Price) (s : ScrapedProduct) :
    should_update_price now cur s = true ↔
      (now - cur.scraped_at > 24 ∨
       |cur.price - s.price| / cur.price ≥ price_change_threshold ∨
       cur.is_available ≠ s.is_available ∨
       cur.is_discounted ≠ s.is_discounted) := by
  unfold should_update_price
  split_ifs with h1 h2 h3 h4
  · exact iff_of_true rfl (Or.inl h1)
  · exact iff_of_true rfl (Or.inr (Or.inl h2))
  · exact iff_of_true rfl (Or.inr (Or.inr (Or.inl h3)))
  · exact iff_of_true rfl (Or.inr (Or.inr (Or.inr h4)))
  · simp only [h1, h2, h3, h4]
    simp

/-- C4: given a matched product with a current price record (of positive
price — a zero current price would make the Python comparison raise), the
superseding update is performed iff the record is older than 24 hours, or the
absolute relative price change is at least 5 %, or the availability flag
differs, or the discount flag differs. -/
theorem C4_price_update_gate (now : ℚ) (db : DBState) (product : Product)
    (s : ScrapedProduct) (cur : Price)
    (hcur : current_price_query db product.id product.store_id = some cur)
    (_hpos : 0 < cur.price) :
    (update_existing_product now db product s).2 = true ↔
      (now - cur.scraped_at > 24 ∨
       |cur.price - s.price| / cur.price ≥ 5/100 ∨
       cur.is_available ≠ s.is_available ∨
       cur.is_discounted ≠ s.is_discounted) := by
  have : (update_existing_product now db product s).2 = should_update_price now cur s := by
    unfold update_existing_product
    rw [hcur]
    cases hb : should_update_price now cur s
    · simp [hb]
    · simp [hb]
  rw [this, should_update_price_iff]
  rfl

/-- C4 witness: on a fresh (age 1 h) current record at 20.00 with unchanged
flags, 20.50 (2.5 %) does not trigger an update and 21.50 (7.5 %) does. -/
theorem C4_witness :
    (update_existing_product 1
        { prices := [{ product_id := 1, store_id := 1, price := 20, scraped_at := 0 }] }
        { id := 1, store_id := 1, name := "x" } { name := "x", price := 205/10 }).2 = false ∧
    (update_existing_product 1
        { prices := [{ product_id := 1, store_id := 1, price := 20, scraped_at := 0 }] }
        { id := 1, store_id := 1, name := "x" } { name := "x", price := 215/10 }).2 = true := by
  have h1 := C4_price_update_gate 1
    { prices := [{ product_id := 1, store_id := 1, price := 20, scraped_at := 0 }] }
    { id := 1, store_id := 1, name := "x" } { name := "x", price := 205/10 }
    { product_id := 1, store_id := 1, price := 20, scraped_at := 0 } (by decide) (by norm_num)
  have h2 := C4_price_update_gate 1
    { prices := [{ product_id := 1, store_id := 1, price := 20, scraped_at := 0 }] }
    { id := 1, store_id := 1, name := "x" } { name := "x", price := 215/10 }
    { product_id := 1, store_id := 1, price := 20, scraped_at := 0 } (by decide) (by norm_num)
  constructor
  · rw [Bool.eq_false_iff, Ne, h1]
    decide
  · rw [h2]
    decide

/-! ### C5 -/

/-- C5: whenever the update gate fires against an existing current record,
exactly one history row is appended; its snapshot fields are those of the old
record and its changeType is the spec's priority chain (unavailable, then
new, then increase/decrease at the 1 % threshold, else stable). -/
theorem C5_history_snapshot (now : ℚ) (db : DBState) (product : Product)
    (s : ScrapedProduct) (cur : Price)
    (hcur : current_price_query db product.id product.store_id = some cur)
    (hupd : should_update_price now cur s = true) :
    (update_existing_product now db product s).1.histories =
        db.histories ++ [create_price_history_entry cur s] ∧
    (create_price_history_entry cur s).price = cur.price ∧
    (create_price_history_entry cur s).original_price = cur.original_price ∧
    (create_price_history_entry cur s).is_available = cur.is_available ∧
    (create_price_history_entry cur s).is_discounted = cur.is_discounted ∧
    (create_price_history_entry cur s).recorded_at = cur.scraped_at ∧
    (create_price_history_entry cur s).change_type =
      spec_change_type s.is_available cur.is_available
        (create_price_history_entry cur s).change_percentage
        (create_price_history_entry cur s).change_amount := by
  refine ⟨?_, rfl, rfl, rfl, rfl, rfl, ?_⟩
  · unfold update_existing_product
    rw [hcur]
    simp [hupd]
  · unfold create_price_history_entry spec_change_type
    by_cases hav : s.is_available
    · by_cases hold : cur.is_available
      · simp [hav, hold]
      · simp [hav, hold]
    · simp [hav]

/-- C5 witness: a record that was unavailable and reappears available at a
large price delta (20 → 21.50) emits a `new` history entry, snapshotting the
old row. -/
theorem C5_witness :
    (update_existing_product 1
        { prices := [{ product_id := 1, store_id := 1, price := 20, scraped_at := 0,
                       is_available := false }] }
        { id := 1, store_id := 1, name := "x" } { name := "x", price := 215/10 }).1.histories =
      [create_price_history_entry
        { product_id := 1, store_id := 1, price := 20, scraped_at := 0,
          is_available := false }
        { name := "x", price := 215/10 }] ∧
    (create_price_history_entry
        { product_id := 1, store_id := 1, price := 20, scraped_at := 0,
          is_available := false }
        { name := "x", price := 215/10 }).change_type = "new" := by
  have h := C5_history_snapshot 1
    { prices := [{ product_id := 1, store_id := 1, price := 20, scraped_at := 0,
                   is_available := false }] }
    { id := 1, store_id := 1, name := "x" } { name := "x", price := 215/10 }
    { product_id := 1, store_id := 1, price := 20, scraped_at := 0, is_available := false }
    (by decide) (by decide)
  refine ⟨h.1, ?_⟩
  rw [h.2.2.2.2.2.2]
  decide

/-! ### C7 -/

/-- Unfolding equation for `keep_first_by_key` on a nonempty list. -/
theorem keep_first_by_key_cons (p : ScrapedProduct) (ps : List ScrapedProduct) :
    keep_first_by_key (p :: ps) =
      p :: keep_first_by_key (ps.filter (fun q => product_key q ≠ product_key p)) := by
  rw [keep_first_by_key.eq_def]

/-- The seen-set worker of `_remove_duplicates` computes first occurrences. -/
theorem remove_duplicatesAux_eq_keep_first (ps : List ScrapedProduct) :
    ∀ seen, remove_duplicatesAux ps seen =
      keep_first_by_key (ps.filter (fun p => product_key p ∉ seen)) := by
  induction ps with
  | nil => intro seen; simp [remove_duplicatesAux, keep_first_by_key]
  | cons p ps ih =>
    intro seen
    by_cases h : product_key p ∈ seen
    · simp only [remove_duplicatesAux, if_pos h, List.filter_cons]
      rw [show (decide (product_key p ∉ seen)) = false by simpa using h]
      simp only [Bool.false_eq_true, if_false, ih]
    · simp only [remove_duplicatesAux, if_neg h, List.filter_cons]
      rw [show (decide (product_key p ∉ seen)) = true by simpa using h]
      simp only [if_true]
      rw [keep_first_by_key_cons, ih (product_key p :: seen)]
      congr 2
      rw [List.filter_filter]
      apply List.filter_congr
      intro q _
      simp [List.mem_cons, not_or, and_comm]

/-- C7: deduplication keys records by (normalized name, rounded price) and is
exactly "keep the first occurrence of each key"; on the three-record example
exactly the first of the equal pair and the differing-price record survive. -/
theorem C7_dedup_first_occurrence :
    (∀ ps : List ScrapedProduct, remove_duplicates ps = keep_first_by_key ps) ∧
    remove_duplicates
        [{ name := "Tomato 1kg", price := 20 }, { name := "tomato 1kg", price := 20 },
         { name := "Tomato 1kg", price := 21 }] =
      [{ name := "Tomato 1kg", price := 20 }, { name := "Tomato 1kg", price := 21 }] := by
  constructor
  · intro ps
    rw [remove_duplicates, remove_duplicatesAux_eq_keep_first]
    congr 1
    apply List.filter_eq_self.mpr
    intro a _
    simp
  · decide

/-! ### C9 -/

/-- Closed form of the six sequential conditional fills of
`_update_existing_product`'s merge phase: the conditions touch pairwise
distinct fields, so they are independent. -/
theorem merge_product_fields_eq (product : Product) (s : ScrapedProduct) :
    merge_product_fields product s = { product with
      description := if truthyS s.description ∧ ¬ truthyS product.description
        then s.description else product.description
      image_url := if truthyS s.image_url ∧ ¬ truthyS product.image_url
        then s.image_url else product.image_url
      brand := if truthyS s.brand ∧ ¬ truthyS product.brand
        then s.brand else product.brand
      weight := if truthyQ s.weight_value ∧ ¬ truthyQ product.weight
        then s.weight_value else product.weight
      unit := if truthyS s.pack_unit ∧ ¬ truthyS product.unit
        then s.pack_unit else product.unit
      external_id := if truthyS s.external_id ∧ ¬ truthyS product.external_id
        then s.external_id else product.external_id } := by
  by_cases h1 : truthyS s.description = true ∧ truthyS product.description = false <;>
  by_cases h2 : truthyS s.image_url = true ∧ truthyS product.image_url = false <;>
  by_cases h3 : truthyS s.brand = true ∧ truthyS product.brand = false <;>
  by_cases h4 : truthyQ s.weight_value = true ∧ truthyQ product.weight = false <;>
  by_cases h5 : truthyS s.pack_unit = true ∧ truthyS product.unit = false <;>
  by_cases h6 : truthyS s.external_id = true ∧ truthyS product.external_id = false <;>
  simp [merge_product_fields, h1, h2, h3, h4, h5, h6]

/-- C9: merging a scraped record into a matched product never overwrites a
populated field: each of description, image_url, brand, weight, unit and
external_id keeps its prior value when truthy, and is filled from the scraped
record (when the scraped value is truthy) only when currently empty. -/
theorem C9_merge_never_overwrites (product : Product) (s : ScrapedProduct) :
    (truthyS product.description →
      (merge_product_fields product s).description = product.description) ∧
    (truthyS product.image_url →
      (merge_product_fields product s).image_url = product.image_url) ∧
    (truthyS product.brand →
      (merge_product_fields product s).brand = product.brand) ∧
    (truthyQ product.weight →
      (merge_product_fields product s).weight = product.weight) ∧
    (truthyS product.unit →
      (merge_product_fields product s).unit = product.unit) ∧
    (truthyS product.external_id →
      (merge_product_fields product s).external_id = product.external_id) ∧
    (¬ truthyS product.description →
      (merge_product_fields product s).description =
        if truthyS s.description then s.description else product.description) ∧
    (¬ truthyS product.image_url →
      (merge_product_fields product s).image_url =
        if truthyS s.image_url then s.image_url else product.image_url) ∧
    (¬ truthyS product.brand →
      (merge_product_fields product s).brand =
        if truthyS s.brand then s.brand else product.brand) ∧
    (¬ truthyQ product.weight →
      (merge_product_fields product s).weight =
        if truthyQ s.weight_value then s.weight_value else product.weight) ∧
    (¬ truthyS product.unit →
      (merge_product_fields product s).unit =
        if truthyS s.pack_unit then s.pack_unit else product.unit) ∧
    (¬ truthyS product.external_id →
      (merge_product_fields product s).external_id =
        if truthyS s.external_id then s.external_id else product.external_id) := by
  refine ⟨?_, ?_, ?_, ?_, ?_, ?_, ?_, ?_, ?_, ?_, ?_, ?_⟩ <;>
    (intro h; rw [merge_product_fields_eq]; simp [h])

/-- C9 witness: a populated brand survives, an empty description is filled. -/
theorem C9_witness :
    (merge_product_fields
        { id := 1, store_id := 1, name := "x", brand := some "Almarai" }
        { name := "x", price := 1, brand := some "Other",
          description := some "fresh" }).brand = some "Almarai" ∧
    (merge_product_fields
        { id := 1, store_id := 1, name := "x", brand := some "Almarai" }
        { name := "x", price := 1, brand := some "Other",
          description := some "fresh" }).description = some "fresh" := by
  have h := C9_merge_never_overwrites
    { id := 1, store_id := 1, name := "x", brand := some "Almarai" }
    { name := "x", price := 1, brand := some "Other", description := some "fresh" }
  refine ⟨h.2.2.1 (by decide), ?_⟩
  rw [h.2.2.2.2.2.2.1 (by decide)]
  decide

/-! ### C10 -/

/-- A successfully parsed price string denotes a non-negative value. -/
theorem parsePyFloat_nonneg (cs : List Char) (v : ℚ) (h : parsePyFloat cs = some v) :
    0 ≤ v := by
  unfold parsePyFloat at h
  split at h
  · exact absurd h (by simp)
  · split at h
    · split at h
      · exact absurd h (by simp)
      · cases h with
        | refl => positivity
    · split at h
      · exact absurd h (by simp)
      · cases h with
        | refl => positivity
    · exact absurd h (by simp)

/-- Banker's rounding preserves non-negativity. -/
theorem roundHalfEven_nonneg (q : ℚ) (h : 0 ≤ q) : 0 ≤ roundHalfEven q := by
  have hf : 0 ≤ Int.fdiv q.num q.den :=
    Int.fdiv_nonneg (Rat.num_nonneg.mpr h) (Int.ofNat_nonneg _)
  simp only [roundHalfEven, ratFloor]
  split_ifs <;> omega

/-- `round(x, 2)` preserves non-negativity. -/
theorem round2_nonneg (q : ℚ) (h : 0 ≤ q) : 0 ≤ round2 q := by
  unfold round2
  have h1 : 0 ≤ roundHalfEven (q * 100) := roundHalfEven_nonneg _ (by positivity)
  have h2 : (0 : ℚ) ≤ (roundHalfEven (q * 100) : ℚ) := by exact_mod_cast h1
  positivity

/-- C10: on every input string, both generations' `clean_price` return
normally with a non-negative value, and return 0 whenever the cleaned text
fails to parse as a number. -/
theorem C10_clean_price_total_nonneg (s : String) :
    (0 ≤ clean_price_server s ∧
      (parsePyFloat (cleanedDigits s) = none → clean_price_server s = 0)) ∧
    (0 ≤ clean_price_backend s ∧
      (parsePyFloat (cleanedDigitsBackend s) = none → clean_price_backend s = 0)) := by
  refine ⟨⟨?_, ?_⟩, ?_, ?_⟩
  · unfold clean_price_server
    split_ifs
    · exact le_refl 0
    · cases hm : parsePyFloat (cleanedDigits s) with
      | none => simp
      | some v => exact round2_nonneg v (parsePyFloat_nonneg _ v hm)
  · intro hm
    unfold clean_price_server
    split_ifs
    · rfl
    · rw [hm]
  · unfold clean_price_backend
    cases hm : parsePyFloat (cleanedDigitsBackend s) with
    | none => simp
    | some v => exact parsePyFloat_nonneg _ v hm
  · intro hm
    unfold clean_price_backend
    rw [hm]

/-! ### Infrastructure for C3 and C6 -/

/-- A record that passes the processor's validation has a positive price. -/
theorem validate_pos (p : ScrapedProduct) (h : validate_scraped_product p = true) :
    0 < p.price := by
  unfold validate_scraped_product at h
  split_ifs at h with h1 h2 h3 <;> simp_all

/-- A fold whose step either keeps the accumulator or switches to the current
element returns its start value or a list member. -/
theorem fold_shape_generic {α : Type} (f : Option α → α → Option α)
    (hf : ∀ acc a, f acc a = acc ∨ f acc a = some a) (l : List α) :
    ∀ acc, l.foldl f acc = acc ∨ ∃ x ∈ l, l.foldl f acc = some x := by
  induction l with
  | nil => intro acc; exact Or.inl rfl
  | cons a t ih =>
    intro acc
    rcases ih (f acc a) with h | ⟨x, hx, hfx⟩
    · rcases hf acc a with hs | hs
      · exact Or.inl (by rw [List.foldl_cons, h, hs])
      · exact Or.inr ⟨a, List.mem_cons_self a t, by rw [List.foldl_cons, h, hs]⟩
    · exact Or.inr ⟨x, List.mem_cons_of_mem a hx, by rw [List.foldl_cons]; exact hfx⟩

/-- The latest-price step keeps the accumulator or switches to the element. -/
theorem latest_step_shape (acc : Option Price) (a : Price) :
    (match acc with
      | none => some a
      | some best => if a.scraped_at > best.scraped_at then some a else best) = acc ∨
    (match acc with
      | none => some a
      | some best => if a.scraped_at > best.scraped_at then some a else best) = some a := by
  cases acc with
  | none => exact Or.inr rfl
  | some best =>
    by_cases hgt : a.scraped_at > best.scraped_at
    · simp [hgt]
    · simp [hgt]

/-- A computed latest price is a member of the list. -/
theorem latest_price_mem (l : List Price) (cur : Price) (h : latest_price l = some cur) :
    cur ∈ l := by
  unfold latest_price at h
  rcases fold_shape_generic _ latest_step_shape l none with hs | ⟨x, hx, hfx⟩
  · rw [h] at hs; cases hs
  · rw [hfx] at h; cases h; exact hx

/-- With one strictly-newest row appended, the latest-price query returns it. -/
theorem latest_price_append (l : List Price) (e : Price)
    (h : ∀ x ∈ l, x.scraped_at < e.scraped_at) :
    latest_price (l ++ [e]) = some e := by
  unfold latest_price
  rw [List.foldl_append]
  rcases fold_shape_generic _ latest_step_shape l none with hs | ⟨x, hx, hfx⟩
  · rw [hs]; rfl
  · rw [hfx]
    simp only [List.foldl_cons, List.foldl_nil]
    simp [h x hx]

/-- Every id in the table is below the fold of `nextProductId`. -/
theorem foldl_max_ge_init (l : List Product) :
    ∀ init : ℕ, init ≤ l.foldl (fun m q => max m q.id) init := by
  induction l with
  | nil => intro init; exact le_refl _
  | cons a t ih =>
    intro init
    exact le_trans (le_max_left init a.id) (ih (max init a.id))

/-- Members' ids are bounded by the max fold. -/
theorem id_le_foldl_max (l : List Product) :
    ∀ (init : ℕ) (q : Product), q ∈ l → q.id ≤ l.foldl (fun m q => max m q.id) init := by
  induction l with
  | nil => intro _ q hq; cases hq
  | cons a t ih =>
    intro init q hq
    rcases List.mem_cons.mp hq with rfl | hq
    · exact le_trans (le_max_right init q.id) (foldl_max_ge_init t (max init q.id))
    · exact ih (max init a.id) q hq

/-- The freshly flushed id is strictly above every existing product id. -/
theorem nextProductId_gt (db : DBState) (q : Product) (hq : q ∈ db.products) :
    q.id < nextProductId db :=
  Nat.lt_succ_of_le (id_le_foldl_max db.products 0 q hq)

/-- `find?` through `map` when the predicate is preserved pointwise. -/
theorem find?_map_pointwise {α : Type} (l : List α) (f : α → α) (pr pr' : α → Bool)
    (h : ∀ x ∈ l, pr' (f x) = pr x) :
    (l.map f).find? pr' = (l.find? pr).map f := by
  induction l with
  | nil => rfl
  | cons a t ih =>
    simp only [List.map_cons, List.find?]
    rw [h a (List.mem_cons_self a t)]
    cases hpa : pr a
    · exact ih (fun x hx => h x (List.mem_cons_of_mem a hx))
    · rfl

/-- `find?` through `map` when exactly the image of `P` satisfies the
predicate among images of list elements. -/
theorem find?_map_hit {α : Type} [DecidableEq α] (l : List α) (f : α → α) (pr' : α → Bool)
    (P : α) (hmem : P ∈ l) (hhit : pr' (f P) = true)
    (hmiss : ∀ x ∈ l, x ≠ P → pr' (f x) = false) :
    (l.map f).find? pr' = some (f P) := by
  induction l with
  | nil => cases hmem
  | cons a t ih =>
    simp only [List.map_cons, List.find?]
    by_cases ha : a = P
    · subst ha; rw [hhit]
    · rw [hmiss a (List.mem_cons_self a t) ha]
      exact ih (List.mem_cons.mp hmem |>.resolve_left (fun h => ha h.symm))
        (fun x hx hne => hmiss x (List.mem_cons_of_mem a hx) hne)

/-- `filter` through `map` when the predicate is preserved pointwise. -/
theorem filter_map_comm {α : Type} (l : List α) (f : α → α) (pr : α → Bool)
    (h : ∀ x ∈ l, pr (f x) = pr x) :
    (l.map f).filter pr = (l.filter pr).map f := by
  induction l with
  | nil => rfl
  | cons a t ih =>
    simp only [List.map_cons, List.filter_cons]
    rw [h a (List.mem_cons_self a t)]
    cases hpa : pr a <;>
      simp [ih (fun x hx => h x (List.mem_cons_of_mem a hx))]

/-- The merge phase never changes id, store, or name. -/
theorem merge_product_fields_frame (product : Product) (s : ScrapedProduct) :
    (merge_product_fields product s).id = product.id ∧
    (merge_product_fields product s).store_id = product.store_id ∧
    (merge_product_fields product s).name = product.name := by
  rw [merge_product_fields_eq]
  exact ⟨rfl, rfl, rfl⟩

/-- The merged external id, in closed form. -/
theorem merge_product_fields_external_id (product : Product) (s : ScrapedProduct) :
    (merge_product_fields product s).external_id =
      if truthyS s.external_id ∧ ¬ truthyS product.external_id then s.external_id
      else product.external_id := by
  rw [merge_product_fields_eq]

/-- What a negative update gate implies (conditions 2–4 are
time-independent). -/
theorem should_update_false_elim (now : ℚ) (cur : Price) (s : ScrapedProduct)
    (h : should_update_price now cur s = false) :
    ¬ (now - cur.scraped_at > 24) ∧
    ¬ (|cur.price - s.price| / cur.price ≥ price_change_threshold) ∧
    cur.is_available = s.is_available ∧ cur.is_discounted = s.is_discounted := by
  unfold should_update_price at h
  split_ifs at h with h1 h2 h3 h4
  exact ⟨h1, h2, not_not.mp h3, not_not.mp h4⟩

/-- Building a negative gate from the four negated conditions. -/
theorem should_update_false_intro (now : ℚ) (cur : Price) (s : ScrapedProduct)
    (h1 : ¬ (now - cur.scraped_at > 24))
    (h2 : ¬ (|cur.price - s.price| / cur.price ≥ price_change_threshold))
    (h3 : cur.is_available = s.is_available) (h4 : cur.is_discounted = s.is_discounted) :
    should_update_price now cur s = false := by
  unfold should_update_price
  rw [if_neg h1, if_neg h2, if_neg (by simp [h3]), if_neg (by simp [h4])]

/-- A price entry just written from the same record never retriggers the gate
within 24 hours. -/
theorem should_update_on_fresh_entry (t1 t2 : ℚ) (pid sid : ℕ) (p : ScrapedProduct)
    (hp : 0 < p.price) (h : t2 - t1 ≤ 24) :
    should_update_price t2 (create_price_entry t1 pid sid p) p = false := by
  apply should_update_false_intro
  · show ¬ (t2 - t1 > 24)
    exact not_lt.mpr h
  · show ¬ (|p.price - p.price| / p.price ≥ price_change_threshold)
    rw [sub_self, abs_zero, zero_div]
    norm_num [price_change_threshold]
  · rfl
  · rfl

/-- What a failed match means: all three stages found nothing. -/
theorem find_matching_none_elim (db : DBState) (sid : ℕ) (s : ScrapedProduct)
    (h : find_matching_product db sid s = none) :
    (truthyS s.external_id = true →
      (db.products.filter (fun q => q.store_id = sid)).find?
        (fun q => q.external_id = s.external_id) = none) ∧
    (db.products.filter (fun q => q.store_id = sid)).find?
      (fun q => q.name = s.name) = none ∧
    (db.products.filter (fun q => q.store_id = sid)).find?
      (fun q => calculate_similarity (normalize_product_name s.name)
        (normalize_product_name q.name) ≥ similarity_threshold) = none := by
  simp only [find_matching_product] at h
  by_cases he : truthyS s.external_id = true
  · rw [if_pos he] at h
    cases hfe : (db.products.filter (fun q => q.store_id = sid)).find?
        (fun q => q.external_id = s.external_id) with
    | some q => rw [hfe] at h; simp at h
    | none =>
      rw [hfe] at h
      cases hfn : (db.products.filter (fun q => q.store_id = sid)).find?
          (fun q => q.name = s.name) with
      | some q => rw [hfn] at h; simp at h
      | none =>
        rw [hfn] at h
        exact ⟨fun _ => rfl, rfl, h⟩
  · rw [if_neg he] at h
    cases hfn : (db.products.filter (fun q => q.store_id = sid)).find?
        (fun q => q.name = s.name) with
    | some q => rw [hfn] at h; simp at h
    | none =>
      rw [hfn] at h
      exact ⟨fun hc => absurd hc he, rfl, h⟩

/-- A successful match is a product of the right store. -/
theorem find_matching_some_mem (db : DBState) (sid : ℕ) (s : ScrapedProduct)
    (P : Product) (h : find_matching_product db sid s = some P) :
    P ∈ db.products ∧ P.store_id = sid := by
  have out : ∀ pr : Product → Bool,
      (db.products.filter (fun q => q.store_id = sid)).find? pr = some P →
      P ∈ db.products ∧ P.store_id = sid := by
    intro pr hf
    have hmem := List.mem_filter.mp (List.mem_of_find?_eq_some hf)
    exact ⟨hmem.1, by simpa using hmem.2⟩
  simp only [find_matching_product] at h
  by_cases he : truthyS s.external_id = true
  · rw [if_pos he] at h
    cases hfe : (db.products.filter (fun q => q.store_id = sid)).find?
        (fun q => q.external_id = s.external_id) with
    | some q =>
      simp only [hfe, Option.some.injEq] at h
      subst h
      exact out _ hfe
    | none =>
      simp only [hfe] at h
      cases hfn : (db.products.filter (fun q => q.store_id = sid)).find?
          (fun q => q.name = s.name) with
      | some q =>
        simp only [hfn, Option.some.injEq] at h
        subst h
        exact out _ hfn
      | none =>
        simp only [hfn] at h
        exact out _ h
  · rw [if_neg he] at h
    cases hfn : (db.products.filter (fun q => q.store_id = sid)).find?
        (fun q => q.name = s.name) with
    | some q =>
      simp only [hfn, Option.some.injEq] at h
      subst h
      exact out _ hfn
    | none =>
      simp only [hfn] at h
      exact out _ h

/-- After the in-place update of the matched product, reprocessing the same
record matches the updated row. -/
theorem find_matching_after_update
    (db0 : DBState) (sid : ℕ) (p : ScrapedProduct) (P merged : Product)
    (hids : (db0.products.map Product.id).Nodup)
    (hm : find_matching_product db0 sid p = some P)
    (hid : merged.id = P.id) (hstore : merged.store_id = P.store_id)
    (hname : merged.name = P.name)
    (hext : merged.external_id =
      if truthyS p.external_id ∧ ¬ truthyS P.external_id then p.external_id
      else P.external_id)
    (db1 : DBState)
    (hprod : db1.products = db0.products.map (fun x => if x.id = P.id then merged else x)) :
    find_matching_product db1 sid p = some merged := by
  obtain ⟨hPmem, hPstore⟩ := find_matching_some_mem db0 sid p P hm
  have hfP : (fun x : Product => if x.id = P.id then merged else x) P = merged :=
    if_pos rfl
  have hfx : ∀ x ∈ db0.products, x ≠ P →
      (fun x : Product => if x.id = P.id then merged else x) x = x := by
    intro x hx hne
    exact if_neg (fun hidx => hne (List.inj_on_of_nodup_map hids hx hPmem hidx))
  have hfmem : ∀ x ∈ db0.products.filter (fun q => q.store_id = sid), x ∈ db0.products :=
    fun x hx => (List.mem_filter.mp hx).1
  have hstorepre : ∀ x ∈ db0.products,
      ((fun x : Product => if x.id = P.id then merged else x) x).store_id = x.store_id := by
    intro x hx
    by_cases hxP : x = P
    · subst hxP; rw [hfP, hstore]
    · rw [hfx x hx hxP]
  have hnamepre : ∀ x ∈ db0.products,
      ((fun x : Product => if x.id = P.id then merged else x) x).name = x.name := by
    intro x hx
    by_cases hxP : x = P
    · subst hxP; rw [hfP, hname]
    · rw [hfx x hx hxP]
  have hsp : db1.products.filter (fun q => q.store_id = sid) =
      (db0.products.filter (fun q => q.store_id = sid)).map
        (fun x => if x.id = P.id then merged else x) := by
    rw [hprod]
    exact filter_map_comm _ _ _ (fun x hx => by rw [hstorepre x hx])
  have hnamefind : ∀ res, (db0.products.filter (fun q => q.store_id = sid)).find?
        (fun q => q.name = p.name) = res →
      (db1.products.filter (fun q => q.store_id = sid)).find? (fun q => q.name = p.name) =
        res.map (fun x => if x.id = P.id then merged else x) := by
    intro res hres
    rw [hsp, find?_map_pointwise _ _ (fun q => q.name = p.name) _
      (fun x hx => by simp [hnamepre x (hfmem x hx)]), hres]
  have hsimfind : ∀ res, (db0.products.filter (fun q => q.store_id = sid)).find?
        (fun q => calculate_similarity (normalize_product_name p.name)
          (normalize_product_name q.name) ≥ similarity_threshold) = res →
      (db1.products.filter (fun q => q.store_id = sid)).find?
        (fun q => calculate_similarity (normalize_product_name p.name)
          (normalize_product_name q.name) ≥ similarity_threshold) =
        res.map (fun x => if x.id = P.id then merged else x) := by
    intro res hres
    rw [hsp, find?_map_pointwise _ _
      (fun q => calculate_similarity (normalize_product_name p.name)
        (normalize_product_name q.name) ≥ similarity_threshold) _
      (fun x hx => by simp [hnamepre x (hfmem x hx)]), hres]
  simp only [find_matching_product] at hm ⊢
  by_cases he : truthyS p.external_id = true
  · rw [if_pos he] at hm ⊢
    cases hfe : (db0.products.filter (fun q => q.store_id = sid)).find?
        (fun q => q.external_id = p.external_id) with
    | some q =>
      -- first pass hit the external-id stage: the id was already populated
      rw [hfe] at hm
      simp only [Option.some.injEq] at hm
      rw [hm] at hfe
      have hPext : P.external_id = p.external_id := by
        simpa using List.find?_some hfe
      have hPtruthy : truthyS P.external_id = true := by rw [hPext]; exact he
      have hmext : merged.external_id = P.external_id := by
        rw [hext, if_neg]
        rintro ⟨-, hc⟩
        exact hc hPtruthy
      have hpoint : ∀ x ∈ db0.products.filter (fun q => q.store_id = sid),
          (decide (((fun x : Product => if x.id = P.id then merged else x) x).external_id
            = p.external_id)) = decide (x.external_id = p.external_id) := by
        intro x hx
        by_cases hxP : x = P
        · subst hxP
          simp [hfP, hmext]
        · simp [hfx x (hfmem x hx) hxP]
      have : (db1.products.filter (fun q => q.store_id = sid)).find?
          (fun q => q.external_id = p.external_id) = some merged := by
        rw [hsp, find?_map_pointwise _ _ (fun q => q.external_id = p.external_id) _
          hpoint, hfe]
        simp [hfP]
      rw [this]
    | none =>
      simp only [hfe] at hm
      have hallext : ∀ x ∈ db0.products.filter (fun q => q.store_id = sid),
          (decide (x.external_id = p.external_id)) = false := by
        intro x hx
        have := List.find?_eq_none.mp hfe x hx
        simpa using this
      have hPsp : P ∈ db0.products.filter (fun q => q.store_id = sid) := by
        cases hfn : (db0.products.filter (fun q => q.store_id = sid)).find?
            (fun q => q.name = p.name) with
        | some q =>
          simp only [hfn, Option.some.injEq] at hm
          subst hm
          exact List.mem_of_find?_eq_some hfn
        | none =>
          simp only [hfn] at hm
          exact List.mem_of_find?_eq_some hm
      by_cases hPt : truthyS P.external_id = true
      · -- β: the matched product keeps its other external id
        have hmext : merged.external_id = P.external_id := by
          rw [hext, if_neg]
          rintro ⟨-, hc⟩
          exact hc hPt
        have hext1 : (db1.products.filter (fun q => q.store_id = sid)).find?
            (fun q => q.external_id = p.external_id) = none := by
          have hpoint : ∀ x ∈ db0.products.filter (fun q => q.store_id = sid),
              (decide (((fun x : Product => if x.id = P.id then merged else x) x).external_id
                = p.external_id)) = decide (x.external_id = p.external_id) := by
            intro x hx
            by_cases hxP : x = P
            · subst hxP
              simp [hfP, hmext]
            · simp [hfx x (hfmem x hx) hxP]
          rw [hsp, find?_map_pointwise _ _ (fun q => q.external_id = p.external_id) _
            hpoint, hfe]
          rfl
        rw [hext1]
        cases hfn : (db0.products.filter (fun q => q.store_id = sid)).find?
            (fun q => q.name = p.name) with
        | some q =>
          simp only [hfn, Option.some.injEq] at hm
          subst hm
          rw [hnamefind _ hfn]
          simp [hfP]
        | none =>
          simp only [hfn] at hm
          rw [hnamefind _ hfn]
          simp only [Option.map_none']
          rw [hsimfind _ hm]
          simp [hfP]
      · -- α: the update filled the external id; the second pass hits stage 1
        have hmext : merged.external_id = p.external_id := by
          rw [hext, if_pos ⟨he, hPt⟩]
        have hhit : ((db0.products.filter (fun q => q.store_id = sid)).map
              (fun x : Product => if x.id = P.id then merged else x)).find?
            (fun q => q.external_id = p.external_id) =
            some ((fun x : Product => if x.id = P.id then merged else x) P) := by
          apply find?_map_hit _ _ _ P hPsp
          · simp [hfP, hmext]
          · intro x hx hne
            have hfx' : (if x.id = P.id then merged else x) = x := hfx x (hfmem x hx) hne
            rw [hfx']
            exact hallext x hx
        have : (db1.products.filter (fun q => q.store_id = sid)).find?
            (fun q => q.external_id = p.external_id) = some merged := by
          rw [hsp, hhit, hfP]
        rw [this]
  · rw [if_neg he] at hm ⊢
    cases hfn : (db0.products.filter (fun q => q.store_id = sid)).find?
        (fun q => q.name = p.name) with
    | some q =>
      simp only [hfn, Option.some.injEq] at hm
      subst hm
      rw [hnamefind _ hfn]
      simp [hfP]
    | none =>
      simp only [hfn] at hm
      rw [hnamefind _ hfn]
      simp only [Option.map_none']
      rw [hsimfind _ hm]
      simp [hfP]

/-- After an unmatched record created its product, reprocessing the same
record matches the created row. -/
theorem find_matching_after_create
    (db0 : DBState) (sid : ℕ) (p : ScrapedProduct) (P : Product)
    (hm : find_matching_product db0 sid p = none)
    (hPstore : P.store_id = sid) (hPname : P.name = p.name)
    (hPext : P.external_id = p.external_id)
    (db1 : DBState) (hprod : db1.products = db0.products ++ [P]) :
    find_matching_product db1 sid p = some P := by
  obtain ⟨hext_none, hname_none, _⟩ := find_matching_none_elim db0 sid p hm
  simp only [find_matching_product]
  have hsp : db1.products.filter (fun q => q.store_id = sid) =
      (db0.products.filter (fun q => q.store_id = sid)) ++ [P] := by
    rw [hprod, List.filter_append]
    simp [hPstore]
  rw [hsp]
  by_cases he : truthyS p.external_id = true
  · rw [if_pos he]
    rw [List.find?_append, hext_none he]
    have h1 : List.find? (fun q => q.external_id = p.external_id) [P] = some P := by
      simp [List.find?, hPext]
    rw [h1]
    rfl
  · rw [if_neg he]
    rw [List.find?_append, hname_none]
    have h1 : List.find? (fun q => q.name = p.name) [P] = some P := by
      simp [List.find?, hPname]
    rw [h1]
    rfl

/-- `_update_existing_product` when no current price row exists: write the
entry, no history. -/
theorem update_existing_no_current (now : ℚ) (db : DBState) (P : Product)
    (s : ScrapedProduct) (m : Product)
    (hmg : m = { merge_product_fields P s with updated_at := now })
    (hc : current_price_query db P.id P.store_id = none) :
    update_existing_product now db P s =
      ({ db with
          products := db.products.map (fun q => if q.id = P.id then m else q)
          prices := db.prices ++ [create_price_entry now P.id P.store_id s] }, true) := by
  subst hmg
  simp only [update_existing_product, hc]

/-- `_update_existing_product` when the gate is closed: no write at all. -/
theorem update_existing_no_write (now : ℚ) (db : DBState) (P : Product)
    (s : ScrapedProduct) (cur : Price) (m : Product)
    (hmg : m = { merge_product_fields P s with updated_at := now })
    (hc : current_price_query db P.id P.store_id = some cur)
    (hsu : should_update_price now cur s = false) :
    update_existing_product now db P s =
      ({ db with
          products := db.products.map (fun q => if q.id = P.id then m else q) }, false) := by
  subst hmg
  simp only [update_existing_product, hc, hsu]
  simp

/-- `_update_existing_product` when the gate fires against a current row:
write the entry and one history row. -/
theorem update_existing_write (now : ℚ) (db : DBState) (P : Product)
    (s : ScrapedProduct) (cur : Price) (m : Product)
    (hmg : m = { merge_product_fields P s with updated_at := now })
    (hc : current_price_query db P.id P.store_id = some cur)
    (hsu : should_update_price now cur s = true) :
    update_existing_product now db P s =
      ({ db with
          products := db.products.map (fun q => if q.id = P.id then m else q)
          prices := db.prices ++ [create_price_entry now P.id P.store_id s]
          histories := db.histories ++ [create_price_history_entry cur s] }, true) := by
  subst hmg
  simp only [update_existing_product, hc, hsu]
  simp

/-- `_process_single_product` on a valid, matched record. -/
theorem process_single_matched (now : ℚ) (db : DBState) (sid : ℕ)
    (s : ScrapedProduct) (P : Product)
    (hv : validate_scraped_product s = true)
    (hm : find_matching_product db sid s = some P) :
    process_single_product now db sid s =
      ((update_existing_product now db P s).1,
       { action := "updated", product_id := some P.id,
         price_updated := (update_existing_product now db P s).2 }) := by
  simp only [process_single_product, hv, hm]
  simp

/-- `_process_single_product` on a valid, unmatched record. -/
theorem process_single_created (now : ℚ) (db : DBState) (sid : ℕ)
    (s : ScrapedProduct)
    (hv : validate_scraped_product s = true)
    (hm : find_matching_product db sid s = none)
    (P : Product) (hP : P = new_product_row now db sid s) :
    process_single_product now db sid s =
      ({ db with
          products := db.products ++ [P]
          prices := db.prices ++ [create_price_entry now (nextProductId db) sid s] },
       { action := "created", product_id := some P.id, price_updated := false }) := by
  subst hP
  simp only [process_single_product, hv, hm, create_new_product]
  simp

/-! ### C6 -/

/-- C6: under the database invariants (unique product ids, prices reference
existing products, all observation timestamps predate the first pass) and
within the 24-hour freshness window, reprocessing the same scraped record
creates no new Product and no price-history entry on the second pass: the
record matches the product created or matched on the first pass and the
update gate suppresses the write. -/
theorem C6_second_pass_noop
    (t1 t2 : ℚ) (db0 : DBState) (sid : ℕ) (p : ScrapedProduct)
    (hvalid : validate_scraped_product p = true)
    (hids : (db0.products.map Product.id).Nodup)
    (hfk : ∀ pr ∈ db0.prices, ∃ q ∈ db0.products, q.id = pr.product_id)
    (hts : ∀ pr ∈ db0.prices, pr.scraped_at < t1)
    (h24 : t2 - t1 ≤ 24)
    (hfresh : ∀ pr ∈ db0.prices, t2 - pr.scraped_at ≤ 24) :
    (process_single_product t2 (process_single_product t1 db0 sid p).1 sid p).1.products.length
      = (process_single_product t1 db0 sid p).1.products.length ∧
    (process_single_product t2 (process_single_product t1 db0 sid p).1 sid p).1.histories
      = (process_single_product t1 db0 sid p).1.histories ∧
    (process_single_product t2 (process_single_product t1 db0 sid p).1 sid p).2.action
      = "updated" := by
  have hppos := validate_pos p hvalid
  cases hm : find_matching_product db0 sid p with
  | none =>
    -- pass 1 created a product with a fresh id and one price row at t1
    have h1 := process_single_created t1 db0 sid p hvalid hm
      (new_product_row t1 db0 sid p) rfl
    have hm2 : find_matching_product
        { db0 with
          products := db0.products ++ [new_product_row t1 db0 sid p]
          prices := db0.prices ++ [create_price_entry t1 (nextProductId db0) sid p] }
        sid p = some (new_product_row t1 db0 sid p) :=
      find_matching_after_create db0 sid p (new_product_row t1 db0 sid p) hm
        rfl rfl rfl _ rfl
    have hcur : current_price_query
        { db0 with
          products := db0.products ++ [new_product_row t1 db0 sid p]
          prices := db0.prices ++ [create_price_entry t1 (nextProductId db0) sid p] }
        (new_product_row t1 db0 sid p).id (new_product_row t1 db0 sid p).store_id
        = some (create_price_entry t1 (nextProductId db0) sid p) := by
      unfold current_price_query pricesFor
      show latest_price ((db0.prices ++ [create_price_entry t1 (nextProductId db0) sid p]).filter _)
        = _
      rw [List.filter_append]
      have hnil : db0.prices.filter
          (fun pr => pr.product_id = (new_product_row t1 db0 sid p).id ∧
            pr.store_id = (new_product_row t1 db0 sid p).store_id) = [] := by
        rw [List.filter_eq_nil]
        intro pr hpr
        obtain ⟨q, hq, hqid⟩ := hfk pr hpr
        have hlt := nextProductId_gt db0 q hq
        simp only [decide_eq_true_eq, not_and]
        intro hpid
        rw [← hqid] at hpid
        have : (new_product_row t1 db0 sid p).id = nextProductId db0 := rfl
        rw [this] at hpid
        omega
      rw [hnil]
      have hone : [create_price_entry t1 (nextProductId db0) sid p].filter
          (fun pr => pr.product_id = (new_product_row t1 db0 sid p).id ∧
            pr.store_id = (new_product_row t1 db0 sid p).store_id) =
          [create_price_entry t1 (nextProductId db0) sid p] := by
        simp [create_price_entry, new_product_row]
      rw [hone]
      rfl
    have hsu : should_update_price t2 (create_price_entry t1 (nextProductId db0) sid p) p
        = false := should_update_on_fresh_entry t1 t2 _ _ p hppos h24
    have h4 := update_existing_no_write t2 _ (new_product_row t1 db0 sid p) p
      (create_price_entry t1 (nextProductId db0) sid p) _ rfl hcur hsu
    have h2 := process_single_matched t2
      { db0 with
        products := db0.products ++ [new_product_row t1 db0 sid p]
        prices := db0.prices ++ [create_price_entry t1 (nextProductId db0) sid p] }
      sid p (new_product_row t1 db0 sid p) hvalid hm2
    rw [h1]
    simp only [h2, h4]
    simp
  | some P =>
    have h1 := process_single_matched t1 db0 sid p P hvalid hm
    have hframe := merge_product_fields_frame P p
    have hmid : ({ merge_product_fields P p with updated_at := t1 } : Product).id = P.id :=
      hframe.1
    have hmst : ({ merge_product_fields P p with updated_at := t1 } : Product).store_id
        = P.store_id := hframe.2.1
    have hmna : ({ merge_product_fields P p with updated_at := t1 } : Product).name
        = P.name := hframe.2.2
    have hmext : ({ merge_product_fields P p with updated_at := t1 } : Product).external_id =
        if truthyS p.external_id ∧ ¬ truthyS P.external_id then p.external_id
        else P.external_id := merge_product_fields_external_id P p
    cases hc1 : current_price_query db0 P.id P.store_id with
    | none =>
      have h3 := update_existing_no_current t1 db0 P p _ rfl hc1
      have hm2 := find_matching_after_update db0 sid p P
        { merge_product_fields P p with updated_at := t1 } hids hm hmid hmst hmna hmext
        { db0 with
          products := db0.products.map
            (fun q => if q.id = P.id then { merge_product_fields P p with updated_at := t1 } else q)
          prices := db0.prices ++ [create_price_entry t1 P.id P.store_id p] }
        rfl
      have hcur2 : current_price_query
          { db0 with
            products := db0.products.map
              (fun q => if q.id = P.id then { merge_product_fields P p with updated_at := t1 } else q)
            prices := db0.prices ++ [create_price_entry t1 P.id P.store_id p] }
          ({ merge_product_fields P p with updated_at := t1 } : Product).id
          ({ merge_product_fields P p with updated_at := t1 } : Product).store_id
          = some (create_price_entry t1 P.id P.store_id p) := by
        rw [hmid, hmst]
        unfold current_price_query pricesFor
        show latest_price ((db0.prices ++ [create_price_entry t1 P.id P.store_id p]).filter _) = _
        rw [List.filter_append]
        have hone : [create_price_entry t1 P.id P.store_id p].filter
            (fun pr => pr.product_id = P.id ∧ pr.store_id = P.store_id) =
            [create_price_entry t1 P.id P.store_id p] := by
          simp [create_price_entry]
        rw [hone]
        apply latest_price_append
        intro x hx
        exact hts x (List.mem_filter.mp hx).1
      have hsu2 : should_update_price t2 (create_price_entry t1 P.id P.store_id p) p = false :=
        should_update_on_fresh_entry t1 t2 _ _ p hppos h24
      have h4 := update_existing_no_write t2 _
        { merge_product_fields P p with updated_at := t1 } p
        (create_price_entry t1 P.id P.store_id p) _ rfl hcur2 hsu2
      have h2 := process_single_matched t2
        { db0 with
          products := db0.products.map
            (fun q => if q.id = P.id then { merge_product_fields P p with updated_at := t1 } else q)
          prices := db0.prices ++ [create_price_entry t1 P.id P.store_id p] }
        sid p { merge_product_fields P p with updated_at := t1 } hvalid hm2
      rw [h1]
      simp only [h3, h2, h4]
      simp
    | some cur =>
      cases hsu1 : should_update_price t1 cur p with
      | true =>
        have h3 := update_existing_write t1 db0 P p cur _ rfl hc1 hsu1
        have hm2 := find_matching_after_update db0 sid p P
          { merge_product_fields P p with updated_at := t1 } hids hm hmid hmst hmna hmext
          { db0 with
            products := db0.products.map
              (fun q => if q.id = P.id then { merge_product_fields P p with updated_at := t1 } else q)
            prices := db0.prices ++ [create_price_entry t1 P.id P.store_id p]
            histories := db0.histories ++ [create_price_history_entry cur p] }
          rfl
        have hcur2 : current_price_query
            { db0 with
              products := db0.products.map
                (fun q => if q.id = P.id then { merge_product_fields P p with updated_at := t1 } else q)
              prices := db0.prices ++ [create_price_entry t1 P.id P.store_id p]
              histories := db0.histories ++ [create_price_history_entry cur p] }
            ({ merge_product_fields P p with updated_at := t1 } : Product).id
            ({ merge_product_fields P p with updated_at := t1 } : Product).store_id
            = some (create_price_entry t1 P.id P.store_id p) := by
          rw [hmid, hmst]
          unfold current_price_query pricesFor
          show latest_price ((db0.prices ++ [create_price_entry t1 P.id P.store_id p]).filter _) = _
          rw [List.filter_append]
          have hone : [create_price_entry t1 P.id P.store_id p].filter
              (fun pr => pr.product_id = P.id ∧ pr.store_id = P.store_id) =
              [create_price_entry t1 P.id P.store_id p] := by
            simp [create_price_entry]
          rw [hone]
          apply latest_price_append
          intro x hx
          exact hts x (List.mem_filter.mp hx).1
        have hsu2 : should_update_price t2 (create_price_entry t1 P.id P.store_id p) p = false :=
          should_update_on_fresh_entry t1 t2 _ _ p hppos h24
        have h4 := update_existing_no_write t2 _
          { merge_product_fields P p with updated_at := t1 } p
          (create_price_entry t1 P.id P.store_id p) _ rfl hcur2 hsu2
        have h2 := process_single_matched t2
          { db0 with
            products := db0.products.map
              (fun q => if q.id = P.id then { merge_product_fields P p with updated_at := t1 } else q)
            prices := db0.prices ++ [create_price_entry t1 P.id P.store_id p]
            histories := db0.histories ++ [create_price_history_entry cur p] }
          sid p { merge_product_fields P p with updated_at := t1 } hvalid hm2
        rw [h1]
        simp only [h3, h2, h4]
        simp
      | false =>
        have h3 := update_existing_no_write t1 db0 P p cur _ rfl hc1 hsu1
        have hm2 := find_matching_after_update db0 sid p P
          { merge_product_fields P p with updated_at := t1 } hids hm hmid hmst hmna hmext
          { db0 with
            products := db0.products.map
              (fun q => if q.id = P.id then { merge_product_fields P p with updated_at := t1 } else q) }
          rfl
        have hcur2 : current_price_query
            { db0 with
              products := db0.products.map
                (fun q => if q.id = P.id then { merge_product_fields P p with updated_at := t1 } else q) }
            ({ merge_product_fields P p with updated_at := t1 } : Product).id
            ({ merge_product_fields P p with updated_at := t1 } : Product).store_id
            = some cur := by
          rw [hmid, hmst]
          exact hc1
        have hmemcur : cur ∈ db0.prices := by
          have hmemf := latest_price_mem _ cur hc1
          exact (List.mem_filter.mp hmemf).1
        obtain ⟨-, hd2, hd3, hd4⟩ := should_update_false_elim t1 cur p hsu1
        have hsu2 : should_update_price t2 cur p = false :=
          should_update_false_intro t2 cur p (not_lt.mpr (hfresh cur hmemcur)) hd2 hd3 hd4
        have h4 := update_existing_no_write t2 _
          { merge_product_fields P p with updated_at := t1 } p cur _ rfl hcur2 hsu2
        have h2 := process_single_matched t2
          { db0 with
            products := db0.products.map
              (fun q => if q.id = P.id then { merge_product_fields P p with updated_at := t1 } else q) }
          sid p { merge_product_fields P p with updated_at := t1 } hvalid hm2
        rw [h1]
        simp only [h3, h2, h4]
        simp

/-- C6 witness: a fresh record processed twice an hour apart against an
empty catalog. -/
theorem C6_witness :
    (process_single_product 1 (process_single_product 0 {} 1
        { name := "Apple", price := 20 }).1 1 { name := "Apple", price := 20 }).1.products.length
      = (process_single_product 0 {} 1 { name := "Apple", price := 20 }).1.products.length ∧
    (process_single_product 1 (process_single_product 0 {} 1
        { name := "Apple", price := 20 }).1 1 { name := "Apple", price := 20 }).1.histories
      = (process_single_product 0 {} 1 { name := "Apple", price := 20 }).1.histories ∧
    (process_single_product 1 (process_single_product 0 {} 1
        { name := "Apple", price := 20 }).1 1 { name := "Apple", price := 20 }).2.action
      = "updated" :=
  C6_second_pass_noop 0 1 {} 1 { name := "Apple", price := 20 }
    (by decide) (by decide) (by simp) (by simp) (by norm_num) (by simp)

/-! ### C3 -/

/-- `_update_existing_product` never touches the stores table. -/
theorem update_existing_stores (now : ℚ) (db : DBState) (P : Product)
    (s : ScrapedProduct) : (update_existing_product now db P s).1.stores = db.stores := by
  cases hc : current_price_query db P.id P.store_id with
  | none => rw [update_existing_no_current now db P s _ rfl hc]
  | some cur =>
    cases hsu : should_update_price now cur s with
    | true => rw [update_existing_write now db P s cur _ rfl hc hsu]
    | false => rw [update_existing_no_write now db P s cur _ rfl hc hsu]

/-- `_process_single_product` never touches the stores table. -/
theorem process_single_stores (now : ℚ) (db : DBState) (sid : ℕ)
    (s : ScrapedProduct) : (process_single_product now db sid s).1.stores = db.stores := by
  by_cases hv : validate_scraped_product s = true
  · cases hm : find_matching_product db sid s with
    | some P =>
      rw [process_single_matched now db sid s P hv hm]
      exact update_existing_stores now db P s
    | none => rw [process_single_created now db sid s hv hm _ rfl]
  · have hv' : validate_scraped_product s = false := by
      cases h : validate_scraped_product s
      · rfl
      · exact absurd h hv
    simp [process_single_product, hv']

/-- The per-record loop never touches the stores table. -/
theorem foldl_process_stores (now : ℚ) (sid : ℕ) (rf : ScrapedProduct → Bool)
    (l : List ScrapedProduct) :
    ∀ acc : DBState × Stats,
      (l.foldl (process_record_step now sid rf) acc).1.stores = acc.1.stores := by
  induction l with
  | nil => intro acc; rfl
  | cons a t ih =>
    intro acc
    rw [List.foldl_cons, ih]
    have hps := process_single_stores now acc.1 sid a
    unfold process_record_step
    by_cases hrf : rf a = true
    · simp [hrf]
    · have hrf' : rf a = false := by
        cases h : rf a
        · rfl
        · exact absurd h hrf
      simp only [hrf', Bool.false_eq_true, if_false]
      split_ifs <;> exact hps

/-- The in-place store replacement is what the find-by-id query sees. -/
theorem find?_replace_store (l : List Store) (sid : ℕ) (st newSt : Store)
    (h : l.find? (fun x => x.id = sid) = some st) (hnew : newSt.id = sid) :
    (l.map (fun x => if x.id = sid then newSt else x)).find? (fun x => x.id = sid)
      = some newSt := by
  induction l with
  | nil => simp at h
  | cons a t ih =>
    by_cases ha : a.id = sid
    · simp only [List.map_cons]
      rw [List.find?_cons_of_pos _ (by simp [if_pos ha, hnew])]
      simp [if_pos ha]
    · rw [List.find?_cons_of_neg _ (by simpa using ha)] at h
      simp only [List.map_cons]
      rw [List.find?_cons_of_neg _ (by simp [if_neg ha, ha])]
      exact ih h

/-- `_update_store_stats` bumps the run counter, and the failure counter
exactly when the statistics carry errors. -/
theorem update_store_stats_find (now : ℚ) (db : DBState) (sid : ℕ) (stats : Stats)
    (st : Store) (h : db.stores.find? (fun x => x.id = sid) = some st) :
    ((update_store_stats now db sid stats).stores.find? (fun x => x.id = sid)).map
        (fun x => (x.total_scrapes, x.failed_scrapes)) =
      some (st.total_scrapes + 1,
        if stats.errors ≠ [] then st.failed_scrapes + 1 else st.failed_scrapes) := by
  have hstid : st.id = sid := by simpa using List.find?_some h
  unfold update_store_stats
  rw [h]
  by_cases herr : stats.errors ≠ [] <;>
    · simp only [herr]
      rw [find?_replace_store db.stores sid st _ h (by simp_all; try split_ifs <;> simp_all)]
      simp [herr]
      try split_ifs <;> simp

/-- C3 counterexample: on an infrastructure failure at commit, the code rolls
the whole run back — the store's failed-scrape counter stays 0, not
incremented as claimed — and returns the statistics with the error recorded
instead of propagating an exception. -/
theorem C3_counterexample :
    (process_scraped_products 0
        ⟨{ stores := [{ id := 1 }] }, { stores := [{ id := 1 }] }⟩ 1
        [{ name := "Apple", price := 20 }] (fun _ => false) true).2.current
      = { stores := [{ id := 1 }] } ∧
    (process_scraped_products 0
        ⟨{ stores := [{ id := 1 }] }, { stores := [{ id := 1 }] }⟩ 1
        [{ name := "Apple", price := 20 }] (fun _ => false) true).2.committed
      = { stores := [{ id := 1 }] } ∧
    ((process_scraped_products 0
        ⟨{ stores := [{ id := 1 }] }, { stores := [{ id := 1 }] }⟩ 1
        [{ name := "Apple", price := 20 }] (fun _ => false) true).2.committed.stores.map
      Store.failed_scrapes) = [0] ∧
    (process_scraped_products 0
        ⟨{ stores := [{ id := 1 }] }, { stores := [{ id := 1 }] }⟩ 1
        [{ name := "Apple", price := 20 }] (fun _ => false) true).1.errors
      = ["Failed to process scraped products"] := by
  decide

/-- C3 (amended): an infrastructure failure at commit rolls back the entire
run — catalog, price and store-counter mutations alike, so the failed-scrape
counter is *not* durably incremented — and no exception propagates: the
failure is appended to the returned statistics' error list. Per-record errors
do not abort the transaction: the run still commits, bumping the store's run
counter (and its failure counter exactly when the error list is nonempty). -/
theorem C3_rollback_and_commit_semantics :
    (∀ (now : ℚ) (sess : Sess) (store_id : ℕ) (scraped : List ScrapedProduct)
        (record_fails : ScrapedProduct → Bool),
      (process_scraped_products now sess store_id scraped record_fails true).2.committed
          = sess.committed ∧
      (process_scraped_products now sess store_id scraped record_fails true).2.current
          = sess.committed ∧
      (process_scraped_products now sess store_id scraped record_fails true).1.errors ≠ []) ∧
    (∀ (now : ℚ) (sess : Sess) (store_id : ℕ) (scraped : List ScrapedProduct)
        (record_fails : ScrapedProduct → Bool) (st : Store),
      sess.current.stores.find? (fun x => x.id = store_id) = some st →
      ((process_scraped_products now sess store_id scraped record_fails false).2.committed.stores.find?
          (fun x => x.id = store_id)).map (fun x => (x.total_scrapes, x.failed_scrapes)) =
        some (st.total_scrapes + 1,
          if (process_scraped_products now sess store_id scraped record_fails false).1.errors ≠ []
          then st.failed_scrapes + 1 else st.failed_scrapes)) := by
  constructor
  · intro now sess store_id scraped record_fails
    refine ⟨rfl, rfl, ?_⟩
    simp [process_scraped_products]
  · intro now sess store_id scraped record_fails st h
    have hstores : ((remove_duplicates scraped).foldl
        (process_record_step now store_id record_fails)
        (sess.current,
          ({ total_scraped := scraped.length,
             duplicates_removed :=
               scraped.length - (remove_duplicates scraped).length } : Stats))).1.stores
        = sess.current.stores :=
      foldl_process_stores now store_id record_fails (remove_duplicates scraped) _
    have hfind : ((remove_duplicates scraped).foldl
        (process_record_step now store_id record_fails)
        (sess.current,
          ({ total_scraped := scraped.length,
             duplicates_removed :=
               scraped.length - (remove_duplicates scraped).length } : Stats))).1.stores.find?
        (fun x => x.id = store_id) = some st := by
      rw [hstores]; exact h
    exact update_store_stats_find now _ store_id _ st hfind

/-- C3 witness: a store present in the session, one record, both failure
modes. -/
theorem C3_witness :
    (process_scraped_products 0
        ⟨{ stores := [{ id := 1 }] }, { stores := [{ id := 1 }] }⟩ 1
        [{ name := "Apple", price := 20 }] (fun _ => false) true).2.committed
      = { stores := [{ id := 1 }] } ∧
    ((process_scraped_products 0
        ⟨{ stores := [{ id := 1 }] }, { stores := [{ id := 1 }] }⟩ 1
        [{ name := "Apple", price := 20 }] (fun _ => false) false).2.committed.stores.find?
        (fun x => x.id = 1)).map (fun x => (x.total_scrapes, x.failed_scrapes))
      = some (1, 0) := by
  constructor
  · exact (C3_rollback_and_commit_semantics.1 0
      ⟨{ stores := [{ id := 1 }] }, { stores := [{ id := 1 }] }⟩ 1
      [{ name := "Apple", price := 20 }] (fun _ => false)).1
  · rw [C3_rollback_and_commit_semantics.2 0
      ⟨{ stores := [{ id := 1 }] }, { stores := [{ id := 1 }] }⟩ 1
      [{ name := "Apple", price := 20 }] (fun _ => false) { id := 1 } (by decide)]
    decide

/-- C10 witness: unparseable and symbol-laden inputs. -/
theorem C10_witness :
    clean_price_server "abc" = 0 ∧ 0 ≤ clean_price_server "EGP 1,234.50" ∧
    clean_price_backend "..." = 0 ∧ 0 ≤ clean_price_backend "7,25 EGP" :=
  ⟨(C10_clean_price_total_nonneg "abc").1.2 (by decide),
   (C10_clean_price_total_nonneg "EGP 1,234.50").1.1,
   (C10_clean_price_total_nonneg "...").2.2 (by decide),
   (C10_clean_price_total_nonneg "7,25 EGP").2.1⟩

/-! ### C8 -/

set_option maxHeartbeats 4000000 in
set_option maxRecDepth 10000 in
/-- C8: the classifier source file does not parse (`SyntaxError` at the
corrupted Arabic keyword literals), so `classify_product` can never return at
all. Evaluating the module with only those literals restored: the claim's
name-only call returns the right category `dairy` but confidence exactly 0.7,
not above 0.8 — the > 0.8 brand short-circuit cannot run without a brand
argument; supplying brand "Almarai" does short-circuit to ('dairy', 0.9).
Identical inputs give identical results (the model is a pure function). -/
theorem C8_classifier_evaluation :
    classify_product "Almarai Full Fat Milk 1L" none none none
      = (ProductCategory.dairy, 7/10) ∧
    ¬ ((7/10 : ℚ) > 8/10) ∧
    classify_product "Almarai Full Fat Milk 1L" none (some "Almarai") none
      = (ProductCategory.dairy, 9/10) ∧
    classify_product "Almarai Full Fat Milk 1L" none none none
      = classify_product "Almarai Full Fat Milk 1L" none none none := by
  refine ⟨by decide, by norm_num, by decide, rfl⟩

end ClaimTheorems

